import Mathlib

/-!
# dvln configuration-resolution and output-control layer: verification

Shallow embedding of the core of the `dvln` command-line tool
(`cmds/dvln.go`, `cmds/cmdglobs.go`): the layered settings resolver
("globs"/viper), the two-pass CLI flag binder, the output level and
destination controller (`adjustOutLevels`), the exit-time temp-log note
(`doBeforeExit`), final prep validation (`dvlnFinalPrep`), and the JSON
message interceptor (`handleLookJSONMsgs.FormatMessage`).

The settings resolver (the `globs`/viper package), the `pflag` flag set,
and the `out`/`api` output services live in separate library repositories;
they are modelled here from the specification's description of their
contracts (marked `Modelled from the spec:`), while everything in
`cmds/*.go` is translated directly from that source.
-/

namespace Dvln

/-- A typed setting value (bool | int | string), as stored by the
`globs` (viper) settings table. -/
inductive GVal where
  | b (v : Bool)
  | i (v : Int)
  | s (v : String)
  deriving DecidableEq, Repr

/-- Mutability scope of a setting (`globs.ConstGlobal`, `globs.BasicGlobal`,
`globs.CLIGlobal`, `globs.CLIOnlyGlobal` in `cmds/cmdglobs.go`). -/
inductive Scope where
  | constGlobal
  | basicGlobal
  | cliGlobal
  | cliOnlyGlobal
  deriving DecidableEq, Repr

/-- Minimum user-experience level of a setting (`globs.InternalUse`,
`globs.NoviceUser`, `globs.StandardUser`, `globs.ExpertUser`). -/
inductive UserLevel where
  | internalUse
  | noviceUser
  | standardUser
  | expertUser
  deriving DecidableEq, Repr

/-- Metadata registered via `globs.SetDesc(name, desc, userLevel, scope)`. -/
structure SettingMeta where
  desc : String
  useLevel : UserLevel
  scope : Scope
  deriving DecidableEq, Repr

/-- ASCII lower-casing of one character (setting names are ASCII). -/
def lowerChar (c : Char) : Char :=
  if 65 ≤ c.toNat && c.toNat ≤ 90 then Char.ofNat (c.toNat + 32) else c

/-- ASCII lower-casing of a setting name. -/
def lowerString (s : String) : String := ⟨s.data.map lowerChar⟩

/-- Case-insensitive key comparison: the `globs` (viper) package is
"case independent" (see the comments in `cmds/cmdglobs.go`). -/
def keyEq (a b : String) : Bool := lowerString a == lowerString b

/-- Lookup in an association list under case-insensitive names
(most recent insertion wins, matching "last registration wins"). -/
def lookupKey {α : Type} (l : List (String × α)) (n : String) : Option α :=
  (l.find? (fun p => keyEq p.1 n)).map (·.2)

/-- Remove every entry for a (case-insensitive) name. -/
def removeKey {α : Type} (l : List (String × α)) (n : String) : List (String × α) :=
  l.filter (fun p => !(keyEq p.1 n))

/-- One concrete command-line flag as held by a `pflag` flag set:
long name, one-character shorthand, displayed default, current value,
whether the user actually typed it (`Changed`), and its help text. -/
structure PFlag where
  name : String
  shorthand : String
  defValue : GVal
  value : GVal
  changed : Bool
  desc : String
  deriving DecidableEq, Repr

/-- `pflag` error-handling modes; `ignoreError` is the special tolerant
mode used by the pre-pass (`flag.IgnoreError` in `pushCLIOptsToGlobs`). -/
inductive ErrHandling where
  | continueOnError
  | exitOnError
  | panicOnError
  | ignoreError
  deriving DecidableEq, Repr

/-- Modelled from the spec: a `pflag` flag set as consumed by the binder —
a list of registered flags, the "defaults are re-settable" toggle
(`SetDefValueReparseOK`), and the current error-handling mode. -/
structure FlagSet where
  flags : List PFlag := []
  defValueReparseOK : Bool := false
  errHandling : ErrHandling := .exitOnError
  deriving DecidableEq, Repr

/-- Modelled from the spec: the layered `globs` (viper) settings store.
Layers, lowest precedence first: registered defaults, environment
(name uppercased with the `DVLN_` prefix — modelled as already-scanned
entries), config file, programmatic `Set()` overrides, and the
explicit-CLI flag layer.  Per the resolver contract and the comment at
the `globs.ClearPFlag("record")` call in `cmds/dvln.go`, a flag the user
actually typed outranks a programmatic `Set()`. -/
structure Globs where
  defaults : List (String × GVal) := []
  descs : List (String × SettingMeta) := []
  envL : List (String × GVal) := []
  configL : List (String × GVal) := []
  overrideL : List (String × GVal) := []
  pflagL : List (String × GVal) := []
  deriving DecidableEq, Repr

/-- `globs.SetDefault(name, value)`: later calls for the same name
silently replace the stored default (last registration wins). -/
def Globs.setDefault (g : Globs) (n : String) (v : GVal) : Globs :=
  { g with defaults := (n, v) :: g.defaults }

/-- `globs.SetDesc(name, desc, userLevel, scope)`. -/
def Globs.setDesc (g : Globs) (n : String) (d : String) (u : UserLevel) (s : Scope) : Globs :=
  { g with descs := (n, ⟨d, u, s⟩) :: g.descs }

/-- The registered scope of a setting (defaulting to `cliGlobal` for
names registered without metadata, e.g. `configdir`). -/
def Globs.scopeOf (g : Globs) (n : String) : Scope :=
  ((lookupKey g.descs n).map (·.scope)).getD .cliGlobal

/-- `globs.Desc(name)` first component: the human description. -/
def Globs.descOf (g : Globs) (n : String) : String :=
  ((lookupKey g.descs n).map (·.desc)).getD ""

/-- `globs.Set(name, value)`: programmatic override. -/
def Globs.set (g : Globs) (n : String) (v : GVal) : Globs :=
  { g with overrideL := (n, v) :: g.overrideL }

/-- `globs.ClearPFlag(name)`: drop the explicit-CLI layer entry for a
name (the "little hack" used when replacing `--record=tmp` with the
real temp-file path in `adjustOutLevels`). -/
def Globs.clearPFlag (g : Globs) (n : String) : Globs :=
  { g with pflagL := removeKey g.pflagL n }

/-- `globs.SetPFlags(flagSet)`: shove ONLY the flags the user actually
used on the command line (`Changed`) into the explicit-CLI layer
(see the comment in `pushCLIOptsToGlobs`, `cmds/dvln.go`). -/
def Globs.setPFlags (g : Globs) (fs : FlagSet) : Globs :=
  { g with pflagL := ((fs.flags.filter (·.changed)).map (fun f => (f.name, f.value))) ++ g.pflagL }

/-- Modelled from the spec: resolution for one name.  Precedence,
highest first: explicit CLI, programmatic `Set()`, config file,
environment, default; a `CLIOnlyGlobal` setting never consults the
config-file or environment layers, a `ConstGlobal` setting only its
default; an unregistered name resolves to `none` (zero value). -/
def Globs.getVal (g : Globs) (n : String) : Option GVal :=
  let sc := g.scopeOf n
  let cliOK := sc = Scope.cliGlobal ∨ sc = Scope.cliOnlyGlobal
  let cfgEnvOK := sc = Scope.cliGlobal ∨ sc = Scope.basicGlobal
  match (if cliOK then lookupKey g.pflagL n else none) with
  | some v => some v
  | none =>
    match (if cliOK then lookupKey g.overrideL n else none) with
    | some v => some v
    | none =>
      match (if cfgEnvOK then lookupKey g.configL n else none) with
      | some v => some v
      | none =>
        match (if cfgEnvOK then lookupKey g.envL n else none) with
        | some v => some v
        | none => lookupKey g.defaults n

/-- Coercion of a stored value to `String` (`cast.ToString`). -/
def gvalToString : GVal → String
  | .s v => v
  | .b v => if v then "true" else "false"
  | .i v => toString v

/-- Coercion of a stored value to `Bool` (`cast.ToBool`). -/
def gvalToBool : GVal → Bool
  | .b v => v
  | .s v => v == "true" || v == "1"
  | .i v => v != 0

/-- Coercion of a stored value to `Int` (`cast.ToInt`). -/
def gvalToInt : GVal → Int
  | .i v => v
  | .b v => if v then 1 else 0
  | .s v => (v.toInt?).getD 0

/-- `globs.GetString(name)`; an unregistered name yields the zero value. -/
def Globs.getString (g : Globs) (n : String) : String :=
  ((g.getVal n).map gvalToString).getD ""

/-- `globs.GetBool(name)`. -/
def Globs.getBool (g : Globs) (n : String) : Bool :=
  ((g.getVal n).map gvalToBool).getD false

/-- `globs.GetInt(name)`. -/
def Globs.getInt (g : Globs) (n : String) : Int :=
  ((g.getVal n).map gvalToInt).getD 0

/-- Lemma: a lookup after `removeKey` for the same name finds nothing. -/
theorem lookupKey_removeKey_self {α : Type} (l : List (String × α)) (n : String) :
    lookupKey (removeKey l n) n = none := by
  induction l with
  | nil => rfl
  | cons p t ih =>
    by_cases h : keyEq p.1 n = true
    · simp only [removeKey, List.filter, h, Bool.not_true] at ih ⊢
      exact ih
    · simp only [Bool.not_eq_true] at h
      simp only [removeKey, List.filter, h, Bool.not_false, lookupKey, List.find?] at ih ⊢
      simp only [h, ih]

/-- Lemma: inserting only unrelated (or unchanged) entries in front of a
layer leaves the lookup of `n` untouched. -/
theorem lookupKey_append_of_no_match {α : Type} (l₁ l₂ : List (String × α)) (n : String)
    (h : ∀ p ∈ l₁, keyEq p.1 n = false) :
    lookupKey (l₁ ++ l₂) n = lookupKey l₂ n := by
  induction l₁ with
  | nil => rfl
  | cons p t ih =>
    have hp : keyEq p.1 n = false := h p (by simp)
    simp only [List.cons_append, lookupKey, List.find?, hp]
    exact ih (fun q hq => h q (by simp [hq]))

/-! ## The `out` package's output levels -/

/-- Modelled from the spec: the consumed output service's enumerable
levels, ordered by severity (`out.LevelTrace` … `out.LevelFatal`), plus
the `out.LevelDiscard` sentinel used as a "nothing is emitted"
threshold. -/
inductive Level where
  | trace
  | debug
  | verbose
  | info
  | note
  | issue
  | error
  | fatal
  | discard
  deriving DecidableEq, Repr

/-- Numeric severity rank of a level (discard above everything). -/
def Level.rank : Level → Nat
  | .trace => 1
  | .debug => 2
  | .verbose => 3
  | .info => 4
  | .note => 5
  | .issue => 6
  | .error => 7
  | .fatal => 8
  | .discard => 9

/-- The Go `<` comparison on `out.Level` values. -/
def levelLt (a b : Level) : Bool := a.rank < b.rank

/-- Modelled from the spec: `fmt.Sprintf("%s", level)` — the output
service's level-to-string mapping. -/
def level2String : Level → String
  | .trace => "Trace"
  | .debug => "Debug"
  | .verbose => "Verbose"
  | .info => "Info"
  | .note => "Note"
  | .issue => "Issue"
  | .error => "Error"
  | .fatal => "Fatal"
  | .discard => "Discard"

/-- Modelled from the spec: `out.LevelString2Level`, the inverse
mapping consumed by `adjustOutLevels` (unknown strings fall back to the
"info" default the spec names). -/
def levelString2Level (s : String) : Level :=
  if s == "Trace" then .trace
  else if s == "Debug" then .debug
  else if s == "Verbose" then .verbose
  else if s == "Info" then .info
  else if s == "Note" then .note
  else if s == "Issue" then .issue
  else if s == "Error" then .error
  else if s == "Fatal" then .fatal
  else if s == "Discard" then .discard
  else .info

/-- `out.ForScreen` destination mask bit. -/
def forScreen : Nat := 1

/-- `out.ForLogfile` destination mask bit. -/
def forLogfile : Nat := 2

/-- `out.ForBoth` destination mask (`ForScreen|ForLogfile`). -/
def forBoth : Nat := 3

/-- Modelled from the spec: `out.ErrorExitVal()`, the distinct non-zero
error-exit value used on validation and dispatch failures. -/
def errorExitVal : Int := -1

/-- Modelled from the spec: `out.DefaultErrCode()`, the output
service's default numeric error code attached to stored warnings. -/
def defaultErrCode : Int := 100

/-! ## The dvln setting registry (`cmds/cmdglobs.go`, `doPkgCmdGlobsInit`) -/

/-- `doPkgCmdGlobsInit` from `cmds/cmdglobs.go`: registers every dvln
setting (default value, description, minimum user level, scope) in the
`globs` (viper) table, translated pairwise from the
`SetDefault`/`SetDesc` calls. -/
def doPkgCmdGlobsInit (g : Globs) : Globs :=
  let g := (g.setDefault "wkspcMetaDir" (.s ".dvln")).setDesc "wkspcMetaDir"
    "where dvln config info exists in a workspace" .internalUse .constGlobal
  let g := (g.setDefault "logfilelevel" (.s (level2String .info))).setDesc "logfilelevel"
    "log file output level (used if logging on)" .expertUser .basicGlobal
  let g := (g.setDefault "screenlevel" (.s (level2String .info))).setDesc "screenlevel"
    "screen output level" .expertUser .basicGlobal
  let g := (g.setDefault "analysis" (.b false)).setDesc "analysis"
    "memory and timing analytics" .expertUser .cliGlobal
  let g := (g.setDefault "codebase" (.s "")).setDesc "codebase"
    "codebase name or URL" .noviceUser .cliGlobal
  let g := (g.setDefault "config" (.s "~/.dvlncfg")).setDesc "config"
    "tool config dir|file" .expertUser .cliGlobal
  let g := (g.setDefault "debug" (.b false)).setDesc "debug"
    "control debug output" .standardUser .cliGlobal
  let g := (g.setDefault "devline" (.s "")).setDesc "devline"
    "development line name" .noviceUser .cliGlobal
  let g := (g.setDefault "fatalon" (.i 1)).setDesc "fatalon"
    "# of VCS errs needed to cause exit" .expertUser .cliGlobal
  let g := (g.setDefault "force" (.b false)).setDesc "force"
    "force bypass of protections" .expertUser .cliGlobal
  let g := (g.setDefault "globs" (.s "")).setDesc "globs"
    "show settings available, cfg|env" .expertUser .cliOnlyGlobal
  let g := (g.setDefault "interact" (.b false)).setDesc "interact"
    "prompting control" .standardUser .cliGlobal
  let g := (g.setDefault "jobs" (.s "all")).setDesc "jobs"
    "# of CPU's to use for jobs" .expertUser .cliGlobal
  let g := (g.setDefault "look" (.s "text")).setDesc "look"
    "output look, text|json" .expertUser .cliGlobal
  let g := (g.setDefault "pkg" (.s "")).setDesc "pkg"
    "package selector, comma separated" .noviceUser .cliOnlyGlobal
  let g := (g.setDefault "port" (.i 3856)).setDesc "port"
    "port # for --serve mode" .expertUser .cliGlobal
  let g := (g.setDefault "quiet" (.b false)).setDesc "quiet"
    "silent running" .standardUser .cliGlobal
  let g := (g.setDefault "record" (.s "off")).setDesc "record"
    "to file|'tmp'" .noviceUser .cliGlobal
  let g := (g.setDefault "serve" (.b false)).setDesc "serve"
    "activate REST serve mode" .expertUser .cliGlobal
  let g := (g.setDefault "terse" (.b false)).setDesc "terse"
    "output reduction" .standardUser .cliGlobal
  let g := (g.setDefault "verbose" (.b false)).setDesc "verbose"
    "output verbosity, extends debug" .standardUser .cliGlobal
  let g := (g.setDefault "version" (.b false)).setDesc "version"
    "show tool version details" .standardUser .cliOnlyGlobal
  let g := (g.setDefault "wkspcdir" (.s ".")).setDesc "wkspcdir"
    "workspace directory" .standardUser .cliOnlyGlobal
  g

/-- The registry as populated at process start (`doDvlnInit`). -/
def dvlnRegistry : Globs := doPkgCmdGlobsInit {}

/-- A four-layer populated store for the precedence scenario: the
`look` setting with a default (from the registry), an environment
entry, a config-file entry and an explicit-CLI entry. -/
def c1FullStore : Globs :=
  { dvlnRegistry with
    envL := [("look", .s "envlook")]
    configL := [("look", .s "cfglook")]
    pflagL := [("look", .s "clilook")] }

/-- C1: for a setting open to all four layers, `get()` follows the
precedence Default < Environment < ConfigFile < ExplicitCLI — with all
four present it returns the explicit-CLI value; with the CLI entry
absent, the config-file value; with that absent too, the environment
value; with only the default left, the default — and `SetPFlags` pushes
into the explicit-CLI layer only flags the user actually typed
(`Changed`), never flags left at their registered default
(`pushCLIOptsToGlobs`, `cmds/dvln.go`; resolver modelled from the
spec). -/
theorem C1_layered_precedence :
    (∀ (g : Globs) (n : String) (c : GVal),
      g.scopeOf n = Scope.cliGlobal →
      lookupKey g.pflagL n = some c →
      g.getVal n = some c) ∧
    (∀ (g : Globs) (n : String) (f : GVal),
      g.scopeOf n = Scope.cliGlobal →
      lookupKey g.pflagL n = none →
      lookupKey g.overrideL n = none →
      lookupKey g.configL n = some f →
      g.getVal n = some f) ∧
    (∀ (g : Globs) (n : String) (e : GVal),
      g.scopeOf n = Scope.cliGlobal →
      lookupKey g.pflagL n = none →
      lookupKey g.overrideL n = none →
      lookupKey g.configL n = none →
      lookupKey g.envL n = some e →
      g.getVal n = some e) ∧
    (∀ (g : Globs) (n : String) (d : GVal),
      g.scopeOf n = Scope.cliGlobal →
      lookupKey g.pflagL n = none →
      lookupKey g.overrideL n = none →
      lookupKey g.configL n = none →
      lookupKey g.envL n = none →
      lookupKey g.defaults n = some d →
      g.getVal n = some d) ∧
    (∀ (g : Globs) (fs : FlagSet) (n : String),
      (∀ f ∈ fs.flags, keyEq f.name n = true → f.changed = false) →
      lookupKey (g.setPFlags fs).pflagL n = lookupKey g.pflagL n) := by
  refine ⟨?_, ?_, ?_, ?_, ?_⟩
  · intro g n c hsc hp
    simp [Globs.getVal, hsc, hp]
  · intro g n f hsc hp ho hc
    simp [Globs.getVal, hsc, hp, ho, hc]
  · intro g n e hsc hp ho hc he
    simp [Globs.getVal, hsc, hp, ho, hc, he]
  · intro g n d hsc hp ho hc he hd
    simp [Globs.getVal, hsc, hp, ho, hc, he, hd]
  · intro g fs n h
    show lookupKey (((fs.flags.filter (·.changed)).map (fun f => (f.name, f.value))) ++ g.pflagL) n
        = lookupKey g.pflagL n
    apply lookupKey_append_of_no_match
    intro p hp
    simp only [List.mem_map, List.mem_filter] at hp
    obtain ⟨f, ⟨hf, hch⟩, rfl⟩ := hp
    by_contra hkey
    simp only [Bool.not_eq_false] at hkey
    rw [h f hf hkey] at hch
    cases hch

/-- C1 witness: the precedence chain evaluated on a concrete four-layer
store for `look`, peeling one layer at a time down to the registered
default `"text"`; and a flag set holding only an untyped (unchanged)
flag contributes nothing to the explicit-CLI layer. -/
theorem C1_layered_precedence_witness :
    c1FullStore.getVal "look" = some (.s "clilook") ∧
    ({ c1FullStore with pflagL := [] } : Globs).getVal "look" = some (.s "cfglook") ∧
    ({ c1FullStore with pflagL := [], configL := [] } : Globs).getVal "look" = some (.s "envlook") ∧
    ({ c1FullStore with pflagL := [], configL := [], envL := [] } : Globs).getVal "look"
      = some (.s "text") ∧
    lookupKey (Globs.setPFlags { c1FullStore with pflagL := [] }
      { flags := [{ name := "look", shorthand := "L", defValue := .s "text",
                    value := .s "text", changed := false, desc := "output look, text|json" }] }).pflagL
      "look" = none := by
  refine ⟨?_, ?_, ?_, ?_, ?_⟩
  · exact C1_layered_precedence.1 c1FullStore "look" (.s "clilook") (by decide) (by decide)
  · exact C1_layered_precedence.2.1 _ "look" (.s "cfglook")
      (by decide) (by decide) (by decide) (by decide)
  · exact C1_layered_precedence.2.2.1 _ "look" (.s "envlook")
      (by decide) (by decide) (by decide) (by decide) (by decide)
  · exact C1_layered_precedence.2.2.2.1 _ "look" (.s "text")
      (by decide) (by decide) (by decide) (by decide) (by decide) (by decide)
  · have := C1_layered_precedence.2.2.2.2 ({ c1FullStore with pflagL := [] })
      { flags := [{ name := "look", shorthand := "L", defValue := .s "text",
                    value := .s "text", changed := false, desc := "output look, text|json" }] }
      "look" (by decide)
    simpa using this

/-! ## Output destination state, API response state, process world -/

/-- A screen writer as distinguished by `doBeforeExit` (`os.Stdout`,
`os.Stderr`, or a redirected buffer as used by the tests). -/
inductive Wtr where
  | stdout
  | stderr
  | buffer
  deriving DecidableEq, Repr

/-- Modelled from the spec: the `out` package's per-run destination
state — screen/logfile thresholds, the logfile writer target (none to
start: `ioutil.Discard`), the temp-file allocator (a counter supplying
a fresh path per `UseTempLogFile` call, plus how many allocations
happened), the deferred-function hook (`SetDeferFunc`), the
`LevelNote` screen writer, and the notes actually emitted. -/
structure OutSt where
  screenThresh : Level := .info
  logfileThresh : Level := .discard
  logFileTarget : Option String := none
  tmpCounter : Nat := 0
  tempAllocs : Nat := 0
  deferFnSet : Bool := false
  noteWriter : Wtr := .stdout
  notesEmitted : List String := []
  deriving DecidableEq, Repr

/-- An `api` package message: text, numeric code, output-level name
(`api.NewMsg(msg, code, fmt.Sprintf("%s", level))`). -/
structure ApiMsg where
  msg : String
  code : Int
  level : String
  deriving DecidableEq, Repr

/-- Modelled from the spec: the `api` package's stored response
metadata — the stored note (`SetStoredNote`), stored non-fatal warnings
(`SetStoredNonFatalWarning`), and JSON formatting knobs. -/
structure ApiSt where
  storedNote : Option ApiMsg := none
  storedWarnings : List (ApiMsg × Int) := []
  jsonIndentLevel : Int := 0
  jsonRaw : Bool := false
  jsonPrefix : String := ""
  deriving DecidableEq, Repr

/-- Modelled from the spec: the `pretty` package's text formatting
knobs forwarded by `adjustOutLevels`. -/
structure PrettySt where
  humanize : Bool := false
  outputIndentLevel : Int := 0
  outputPrefixStr : String := ""
  deriving DecidableEq, Repr

/-- A user-visible output action performed through the `out` package. -/
inductive Event where
  | issueExit (exitVal : Int) (code : Int) (msg : String)
  | errorExit (exitVal : Int) (code : Int) (msg : String)
  | fatalMsg (msg : String)
  | printMsg (msg : String)
  | exitCall (v : Int)
  | debugMsg (msg : String)
  deriving DecidableEq, Repr

/-- Outcome of a `wkspc.RootDir` scan: a root directory (possibly empty
when no workspace exists, which is not an error) or a failure. -/
inductive WkspcRes where
  | found (dir : String)
  | failed (msg : String)
  deriving DecidableEq, Repr

/-- The whole process state threaded through the embedded functions of
`cmds/dvln.go`: the `globs` store, the `out`/`api`/`pretty` service
states, the process environment, the home directory, the
`tmpLogfileMsg`/`tmpLogfileActive` package globals, the `currentCmd`
package global, emitted events, and the CPU-parallelism state consumed
by `dvlnFinalPrep`. -/
structure World where
  globs : Globs
  outSt : OutSt := {}
  apiSt : ApiSt := {}
  prettySt : PrettySt := {}
  env : List (String × String) := []
  homeDir : String := ""
  tmpLogfileMsg : String := ""
  tmpLogfileActive : Bool := false
  currentCmd : String := ""
  events : List Event := []
  gomaxprocs : Int := 0
  numCPU : Int := 1
  configFileUsed : String := ""
  wkspcDirArgRes : WkspcRes := .found ""
  wkspcCwdRes : WkspcRes := .found ""
  wkspcRoot : String := ""
  setRootDirErr : Option String := none
  deriving DecidableEq, Repr

/-- `os.Getenv` (unset and explicitly empty both read back as `""`). -/
def getEnvVar (e : List (String × String)) (n : String) : String :=
  ((e.find? (·.1 == n)).map (·.2)).getD ""

/-- `os.Setenv`. -/
def setEnvVar (e : List (String × String)) (n v : String) : List (String × String) :=
  (n, v) :: e

/-- Modelled from the spec: `path.AbsPathify` — expand a leading
home-directory shorthand (`~`) against the user's home directory. -/
def absPathify (homeDir p : String) : String :=
  if p.data.head? = some '~' then homeDir ++ ⟨p.data.drop 1⟩ else p

/-- The path the next `out.UseTempLogFile("dvln.")` call will create:
a unique process-temp file per call. -/
def tmpLogPath (o : OutSt) : String := "/tmp/dvln." ++ toString o.tmpCounter

/-! ## `adjustOutLevels` (`cmds/dvln.go` lines 484-627) -/

/-- Which of the debug/verbose/quiet threshold branches of
`adjustOutLevels` fires (the `if/else if` chain at lines 494-509). -/
inductive OutBranch where
  | dbgVerb
  | dbg
  | verb
  | quietB
  | noneB
  deriving DecidableEq, Repr

/-- The branch selected by the fixed-order chain: debug+verbose, then
debug, then verbose, then quiet, else none. -/
def outLevelBranch (d v q : Bool) : OutBranch :=
  if d && v then .dbgVerb
  else if d then .dbg
  else if v then .verb
  else if q then .quietB
  else .noneB

/-- Lines 500-502: the debug+verbose case turns on the extended screen
prefix style via `DVLN_SCREEN_FLAGS` unless that variable is already
present (a `none` value thereby suppresses it). -/
def enableExtendedScreenPrefix (w : World) : World :=
  if getEnvVar w.env "DVLN_SCREEN_FLAGS" == "" then
    { w with env := setEnvVar w.env "DVLN_SCREEN_FLAGS" "debug" }
  else w

/-- `adjustOutLevels` lines 494-509: the debug/verbose/quiet threshold
chain, after the screen threshold is seeded from `screenlevel`. -/
def adjustVerbosityLevels (w : World) : World :=
  let w := { w with outSt :=
    { w.outSt with screenThresh := levelString2Level (w.globs.getString "screenlevel") } }
  if w.globs.getBool "debug" && w.globs.getBool "verbose" then
    enableExtendedScreenPrefix
      { w with outSt := { w.outSt with screenThresh := .trace, logfileThresh := .trace } }
  else if w.globs.getBool "debug" then
    { w with outSt := { w.outSt with screenThresh := .debug, logfileThresh := .debug } }
  else if w.globs.getBool "verbose" then
    { w with outSt := { w.outSt with screenThresh := .verbose, logfileThresh := .verbose } }
  else if w.globs.getBool "quiet" then
    { w with outSt := { w.outSt with screenThresh := .error } }
  else w

/-- One `DVLN_* -> PKG_OUT_*` environment forward: present and not the
reserved `none` sentinel means copy it across (lines 524-549). -/
def forwardEnvOverride (w : World) (src dst : String) : World :=
  let flags := getEnvVar w.env src
  if flags ≠ "" then
    if flags ≠ "none" then { w with env := setEnvVar w.env dst flags } else w
  else w

/-- The fixed family of environment-variable overrides forwarded into
the `out` package's environment-driven configuration. -/
def forwardOutEnvOverrides (w : World) : World :=
  let w := forwardEnvOverride w "DVLN_DEBUG_SCOPE" "PKG_OUT_DEBUG_SCOPE"
  let w := forwardEnvOverride w "DVLN_LOGFILE_FLAGS" "PKG_OUT_LOGFILE_FLAGS"
  let w := forwardEnvOverride w "DVLN_STACK_TRACE_CONFIG" "PKG_OUT_STACK_TRACE_CONFIG"
  let w := forwardEnvOverride w "DVLN_PKG_OUT_SMART_FLAGS_PREFIX" "PKG_OUT_SMART_FLAGS_PREFIX"
  forwardEnvOverride w "DVLN_SCREEN_FLAGS" "PKG_OUT_SCREEN_FLAGS"

/-- Push resolved `globs` formatting settings into the `api` and
`pretty` packages (lines 556-562). -/
def forwardApiPrettySettings (w : World) : World :=
  { w with
    apiSt := { w.apiSt with
      jsonIndentLevel := w.globs.getInt "jsonindentlevel"
      jsonRaw := w.globs.getBool "jsonraw"
      jsonPrefix := w.globs.getString "jsonprefix" }
    prettySt := {
      humanize := w.globs.getBool "texthumanize"
      outputIndentLevel := w.globs.getInt "textindentlevel"
      outputPrefixStr := w.globs.getString "textprefix" } }

/-- The `record == "temp" || record == "tmp"` branch (lines 571-601):
if no temp logfile is active yet, allocate one (`out.UseTempLogFile`),
remember the note text; in json look store the note in the `api`
response and blank the pending screen note, otherwise register the
exit-time defer hook; then replace `record` in the settings store with
the real path and clear its explicit-CLI entry so the replacement wins.
A second entry is a no-op (`tmpLogfileActive` already true). -/
def recordTempBranch (w : World) : World :=
  if w.tmpLogfileActive = false then
    let path := tmpLogPath w.outSt
    let w := { w with outSt := { w.outSt with
      tmpCounter := w.outSt.tmpCounter + 1
      tempAllocs := w.outSt.tempAllocs + 1
      logFileTarget := some path } }
    let msg := "Temp output logfile: " ++ path
    let w := { w with tmpLogfileActive := true, tmpLogfileMsg := msg }
    let w :=
      if w.globs.getString "look" == "json" then
        { w with
          apiSt := { w.apiSt with storedNote := some ⟨msg, 101, level2String .note⟩ }
          tmpLogfileMsg := "" }
      else
        { w with outSt := { w.outSt with deferFnSet := true } }
    { w with globs := (w.globs.set "record" (.s path)).clearPFlag "record" }
  else w

/-- The explicit-file-path branch (lines 602-616): open the expanded
path as the logfile target, and shorten a leading home directory to `~`
in the stored setting for brief usage output. -/
def recordPathBranch (w : World) (record : String) : World :=
  let origRecord := record
  let w := { w with outSt :=
    { w.outSt with logFileTarget := some (absPathify w.homeDir record) } }
  let record :=
    if w.homeDir ≠ "" && ((w.homeDir ++ "/").data.isPrefixOf record.data) then
      "~" ++ ⟨record.data.drop w.homeDir.length⟩
    else record
  if origRecord ≠ record then { w with globs := w.globs.set "Record" (.s record) } else w

/-- Lines 565-622: recording handling for a non-empty, non-`"off"`
resolved `record` setting, then default the logfile threshold from the
resolved `logfilelevel` setting if it was never set. -/
def handleRecordSetting (w : World) : World :=
  let record := w.globs.getString "record"
  if record ≠ "" ∧ record ≠ "off" then
    let w :=
      if record == "temp" || record == "tmp" then recordTempBranch w
      else recordPathBranch w record
    if w.outSt.logfileThresh = .discard then
      { w with outSt := { w.outSt with
        logfileThresh := levelString2Level (w.globs.getString "logfilelevel") } }
    else w
  else w

/-- Lines 624-626: the test-only `DVLN_LOGFILE_OFF=1` escape hatch. -/
def handleLogfileOffEnv (w : World) : World :=
  if getEnvVar w.env "DVLN_LOGFILE_OFF" == "1" then
    { w with outSt := { w.outSt with logfileThresh := .discard } }
  else w

/-- `adjustOutLevels` (`cmds/dvln.go` lines 484-627), the output level
and destination controller, as the composition of its blocks in source
order. -/
def adjustOutLevels (w : World) : World :=
  handleLogfileOffEnv (handleRecordSetting (forwardApiPrettySettings
    (forwardOutEnvOverrides (adjustVerbosityLevels w))))

/-- `doBeforeExit` (`cmds/dvln.go` lines 460-479): the deferred
exit-time hook — when a temp-logfile note is pending, temporarily send
`LevelNote` screen output to stderr (if currently stdout) and suppress
logfile output, emit the note, then restore both settings. -/
def doBeforeExit (w : World) (exitVal : Int) : World :=
  let _ := exitVal
  if w.tmpLogfileMsg ≠ "" then
    let currWriter := w.outSt.noteWriter
    let w :=
      if currWriter = Wtr.stdout then
        { w with outSt := { w.outSt with noteWriter := .stderr } }
      else w
    let currThresh := w.outSt.logfileThresh
    let w := { w with outSt := { w.outSt with logfileThresh := .discard } }
    let w := { w with outSt := { w.outSt with notesEmitted := w.outSt.notesEmitted ++ [w.tmpLogfileMsg] } }
    let w := { w with outSt := { w.outSt with logfileThresh := currThresh } }
    { w with outSt := { w.outSt with noteWriter := currWriter } }
  else w

/-! ## Frame lemmas for the store and the controller stages -/

theorem lookupKey_cons_of_ne {α : Type} (k n : String) (v : α) (l : List (String × α))
    (h : keyEq k n = false) : lookupKey ((k, v) :: l) n = lookupKey l n := by
  simp [lookupKey, List.find?, h]

theorem keyEq_false_of_trans {p k n : String} (hp : keyEq p k = true) (h : keyEq k n = false) :
    keyEq p n = false := by
  simp only [keyEq, beq_iff_eq, beq_eq_false_iff_ne, ne_eq] at hp h ⊢
  rw [hp]
  exact h

theorem lookupKey_removeKey_of_ne {α : Type} (l : List (String × α)) (k n : String)
    (h : keyEq k n = false) : lookupKey (removeKey l k) n = lookupKey l n := by
  induction l with
  | nil => rfl
  | cons p t ih =>
    by_cases hp : keyEq p.1 k = true
    · have hpn : keyEq p.1 n = false := keyEq_false_of_trans hp h
      simp only [removeKey, List.filter, hp, Bool.not_true] at ih ⊢
      rw [ih]
      simp [lookupKey, List.find?, hpn]
    · simp only [Bool.not_eq_true] at hp
      simp only [removeKey, List.filter, hp, Bool.not_false] at ih ⊢
      by_cases hpn : keyEq p.1 n = true
      · simp [lookupKey, List.find?, hpn]
      · simp only [Bool.not_eq_true] at hpn
        simp only [lookupKey, List.find?, hpn] at ih ⊢
        exact ih

theorem Globs.getVal_set_ne (g : Globs) (k n : String) (v : GVal) (h : keyEq k n = false) :
    (g.set k v).getVal n = g.getVal n := by
  simp [Globs.getVal, Globs.set, Globs.scopeOf, lookupKey_cons_of_ne k n v _ h]

theorem Globs.getVal_clearPFlag_ne (g : Globs) (k n : String) (h : keyEq k n = false) :
    (g.clearPFlag k).getVal n = g.getVal n := by
  simp [Globs.getVal, Globs.clearPFlag, Globs.scopeOf, lookupKey_removeKey_of_ne _ k n h]

theorem Globs.getString_set_ne (g : Globs) (k n : String) (v : GVal) (h : keyEq k n = false) :
    (g.set k v).getString n = g.getString n := by
  simp [Globs.getString, Globs.getVal_set_ne g k n v h]

theorem Globs.getString_clearPFlag_ne (g : Globs) (k n : String) (h : keyEq k n = false) :
    (g.clearPFlag k).getString n = g.getString n := by
  simp [Globs.getString, Globs.getVal_clearPFlag_ne g k n h]

theorem enableExtendedScreenPrefix_outSt (w : World) :
    (enableExtendedScreenPrefix w).outSt = w.outSt := by
  simp only [enableExtendedScreenPrefix]
  split_ifs <;> rfl

theorem enableExtendedScreenPrefix_globs (w : World) :
    (enableExtendedScreenPrefix w).globs = w.globs := by
  simp only [enableExtendedScreenPrefix]
  split_ifs <;> rfl

theorem adjustVerbosityLevels_globs (w : World) :
    (adjustVerbosityLevels w).globs = w.globs := by
  simp only [adjustVerbosityLevels]
  split_ifs <;> simp [enableExtendedScreenPrefix_globs]

theorem forwardEnvOverride_globs (w : World) (s d : String) :
    (forwardEnvOverride w s d).globs = w.globs := by
  simp only [forwardEnvOverride]
  split_ifs <;> rfl

theorem forwardEnvOverride_outSt (w : World) (s d : String) :
    (forwardEnvOverride w s d).outSt = w.outSt := by
  simp only [forwardEnvOverride]
  split_ifs <;> rfl

theorem forwardOutEnvOverrides_globs (w : World) :
    (forwardOutEnvOverrides w).globs = w.globs := by
  simp only [forwardOutEnvOverrides]
  simp [forwardEnvOverride_globs]

theorem forwardOutEnvOverrides_outSt (w : World) :
    (forwardOutEnvOverrides w).outSt = w.outSt := by
  simp only [forwardOutEnvOverrides]
  simp [forwardEnvOverride_outSt]

theorem forwardApiPrettySettings_globs (w : World) :
    (forwardApiPrettySettings w).globs = w.globs := rfl

theorem forwardApiPrettySettings_outSt (w : World) :
    (forwardApiPrettySettings w).outSt = w.outSt := rfl

theorem recordTempBranch_getString_other (w : World) (n : String)
    (h : keyEq "record" n = false) :
    (recordTempBranch w).globs.getString n = w.globs.getString n := by
  simp only [recordTempBranch]
  split_ifs <;>
    simp [Globs.getString_clearPFlag_ne, Globs.getString_set_ne, h]

theorem recordPathBranch_getString_other (w : World) (record n : String)
    (h : keyEq "Record" n = false) :
    (recordPathBranch w record).globs.getString n = w.globs.getString n := by
  simp only [recordPathBranch]
  split_ifs <;> simp [Globs.getString_set_ne, h]

theorem getEnvVar_setEnvVar_ne (e : List (String × String)) (n v m : String) (h : n ≠ m) :
    getEnvVar (setEnvVar e n v) m = getEnvVar e m := by
  have hb : (n == m) = false := by simpa using h
  simp [getEnvVar, setEnvVar, List.find?, hb]

theorem forwardEnvOverride_getEnvVar_ne (w : World) (s d m : String) (h : d ≠ m) :
    getEnvVar (forwardEnvOverride w s d).env m = getEnvVar w.env m := by
  simp only [forwardEnvOverride]
  split_ifs <;> simp [getEnvVar_setEnvVar_ne, h]

theorem forwardOutEnvOverrides_getEnvVar_off (w : World) :
    getEnvVar (forwardOutEnvOverrides w).env "DVLN_LOGFILE_OFF"
      = getEnvVar w.env "DVLN_LOGFILE_OFF" := by
  simp only [forwardOutEnvOverrides]
  rw [forwardEnvOverride_getEnvVar_ne _ _ _ _ (by decide),
    forwardEnvOverride_getEnvVar_ne _ _ _ _ (by decide),
    forwardEnvOverride_getEnvVar_ne _ _ _ _ (by decide),
    forwardEnvOverride_getEnvVar_ne _ _ _ _ (by decide),
    forwardEnvOverride_getEnvVar_ne _ _ _ _ (by decide)]

theorem recordTempBranch_env (w : World) : (recordTempBranch w).env = w.env := by
  simp only [recordTempBranch]
  split_ifs <;> rfl

theorem recordPathBranch_env (w : World) (record : String) :
    (recordPathBranch w record).env = w.env := by
  simp only [recordPathBranch]
  split_ifs <;> rfl

theorem recordTempBranch_screenThresh (w : World) :
    (recordTempBranch w).outSt.screenThresh = w.outSt.screenThresh := by
  simp only [recordTempBranch]
  split_ifs <;> rfl

theorem recordTempBranch_logfileThresh (w : World) :
    (recordTempBranch w).outSt.logfileThresh = w.outSt.logfileThresh := by
  simp only [recordTempBranch]
  split_ifs <;> rfl

theorem recordPathBranch_screenThresh (w : World) (record : String) :
    (recordPathBranch w record).outSt.screenThresh = w.outSt.screenThresh := by
  simp only [recordPathBranch]
  split_ifs <;> rfl

theorem recordPathBranch_logfileThresh (w : World) (record : String) :
    (recordPathBranch w record).outSt.logfileThresh = w.outSt.logfileThresh := by
  simp only [recordPathBranch]
  split_ifs <;> rfl

theorem forwardApiPrettySettings_env (w : World) :
    (forwardApiPrettySettings w).env = w.env := rfl

/-- `handleRecordSetting` with recording active and a never-set logfile
threshold: the screen threshold is untouched, the logfile threshold is
seeded from the resolved `logfilelevel` setting, and the environment is
untouched. -/
theorem handleRecordSetting_active_discard (u : World)
    (h0 : u.outSt.logfileThresh = Level.discard)
    (hr1 : u.globs.getString "record" ≠ "")
    (hr2 : u.globs.getString "record" ≠ "off") :
    (handleRecordSetting u).outSt.screenThresh = u.outSt.screenThresh ∧
    (handleRecordSetting u).outSt.logfileThresh
      = levelString2Level (u.globs.getString "logfilelevel") ∧
    (handleRecordSetting u).env = u.env := by
  simp only [handleRecordSetting]
  rw [if_pos ⟨hr1, hr2⟩]
  by_cases hbr : (u.globs.getString "record" == "temp"
      || u.globs.getString "record" == "tmp") = true
  · rw [if_pos hbr]
    have hlt : (recordTempBranch u).outSt.logfileThresh = Level.discard := by
      rw [recordTempBranch_logfileThresh]; exact h0
    rw [if_pos hlt]
    refine ⟨recordTempBranch_screenThresh u, ?_, recordTempBranch_env u⟩
    show levelString2Level ((recordTempBranch u).globs.getString "logfilelevel") = _
    rw [recordTempBranch_getString_other u _ (by decide)]
  · rw [if_neg hbr]
    have hlt : (recordPathBranch u (u.globs.getString "record")).outSt.logfileThresh
        = Level.discard := by
      rw [recordPathBranch_logfileThresh]; exact h0
    rw [if_pos hlt]
    refine ⟨recordPathBranch_screenThresh u _, ?_, recordPathBranch_env u _⟩
    show levelString2Level ((recordPathBranch u _).globs.getString "logfilelevel") = _
    rw [recordPathBranch_getString_other u _ _ (by decide)]

/-- C2: the debug/verbose/quiet controller fires exactly one branch in
the fixed order debug+verbose, debug, verbose, quiet — debug AND
verbose sets both thresholds to trace; debug alone both to debug;
verbose alone both to verbose; quiet alone only the screen threshold to
error with the logfile threshold untouched; and when no branch holds
the thresholds stay at the resolved `screenlevel`/`logfilelevel`
settings (screen directly; logfile via the recording activation once a
logfile is enabled) (`adjustOutLevels`, `cmds/dvln.go`). -/
theorem C2_output_level_controller :
    (∀ d v q : Bool,
      (outLevelBranch d v q = OutBranch.dbgVerb ↔ d = true ∧ v = true) ∧
      (outLevelBranch d v q = OutBranch.dbg ↔ d = true ∧ v = false) ∧
      (outLevelBranch d v q = OutBranch.verb ↔ d = false ∧ v = true) ∧
      (outLevelBranch d v q = OutBranch.quietB ↔ d = false ∧ v = false ∧ q = true) ∧
      (outLevelBranch d v q = OutBranch.noneB ↔ d = false ∧ v = false ∧ q = false)) ∧
    (∀ w : World,
      (outLevelBranch (w.globs.getBool "debug") (w.globs.getBool "verbose")
          (w.globs.getBool "quiet") = OutBranch.dbgVerb →
        (adjustVerbosityLevels w).outSt.screenThresh = Level.trace ∧
        (adjustVerbosityLevels w).outSt.logfileThresh = Level.trace) ∧
      (outLevelBranch (w.globs.getBool "debug") (w.globs.getBool "verbose")
          (w.globs.getBool "quiet") = OutBranch.dbg →
        (adjustVerbosityLevels w).outSt.screenThresh = Level.debug ∧
        (adjustVerbosityLevels w).outSt.logfileThresh = Level.debug) ∧
      (outLevelBranch (w.globs.getBool "debug") (w.globs.getBool "verbose")
          (w.globs.getBool "quiet") = OutBranch.verb →
        (adjustVerbosityLevels w).outSt.screenThresh = Level.verbose ∧
        (adjustVerbosityLevels w).outSt.logfileThresh = Level.verbose) ∧
      (outLevelBranch (w.globs.getBool "debug") (w.globs.getBool "verbose")
          (w.globs.getBool "quiet") = OutBranch.quietB →
        (adjustVerbosityLevels w).outSt.screenThresh = Level.error ∧
        (adjustVerbosityLevels w).outSt.logfileThresh = w.outSt.logfileThresh) ∧
      (outLevelBranch (w.globs.getBool "debug") (w.globs.getBool "verbose")
          (w.globs.getBool "quiet") = OutBranch.noneB →
        (adjustVerbosityLevels w).outSt.screenThresh
          = levelString2Level (w.globs.getString "screenlevel") ∧
        (adjustVerbosityLevels w).outSt.logfileThresh = w.outSt.logfileThresh)) ∧
    (∀ w : World,
      w.outSt.logfileThresh = Level.discard →
      w.globs.getString "record" ≠ "" →
      w.globs.getString "record" ≠ "off" →
      getEnvVar w.env "DVLN_LOGFILE_OFF" ≠ "1" →
      outLevelBranch (w.globs.getBool "debug") (w.globs.getBool "verbose")
          (w.globs.getBool "quiet") = OutBranch.noneB →
      (adjustOutLevels w).outSt.screenThresh
        = levelString2Level (w.globs.getString "screenlevel") ∧
      (adjustOutLevels w).outSt.logfileThresh
        = levelString2Level (w.globs.getString "logfilelevel")) := by
  refine ⟨by decide, ?_, ?_⟩
  · intro w
    by_cases hd : w.globs.getBool "debug" = true <;>
      by_cases hv : w.globs.getBool "verbose" = true <;>
        by_cases hq : w.globs.getBool "quiet" = true <;>
          simp only [Bool.not_eq_true] at hd hv hq <;>
            simp [outLevelBranch, adjustVerbosityLevels, hd, hv, hq,
              enableExtendedScreenPrefix_outSt]
  · intro w h0 hr1 hr2 henv hb
    have hd : w.globs.getBool "debug" = false := by
      by_cases hd : w.globs.getBool "debug" = true
      · simp [outLevelBranch, hd] at hb
        by_cases hv : w.globs.getBool "verbose" = true <;> simp [hv] at hb
      · simpa using hd
    have hv : w.globs.getBool "verbose" = false := by
      by_cases hv : w.globs.getBool "verbose" = true
      · simp [outLevelBranch, hd, hv] at hb
      · simpa using hv
    have hq : w.globs.getBool "quiet" = false := by
      by_cases hq : w.globs.getBool "quiet" = true
      · simp [outLevelBranch, hd, hv, hq] at hb
      · simpa using hq
    obtain ⟨w1, h1, hw1g, hw1env, hw1scr, hw1log⟩ :
        ∃ w1 : World, adjustVerbosityLevels w = w1 ∧ w1.globs = w.globs ∧ w1.env = w.env ∧
          w1.outSt.screenThresh = levelString2Level (w.globs.getString "screenlevel") ∧
          w1.outSt.logfileThresh = w.outSt.logfileThresh := by
      refine ⟨_, rfl, ?_, ?_, ?_, ?_⟩ <;> simp [adjustVerbosityLevels, hd, hv, hq]
    obtain ⟨w3, h3, hw3g, hw3env, hw3scr, hw3log⟩ :
        ∃ w3 : World, forwardApiPrettySettings (forwardOutEnvOverrides w1) = w3 ∧
          w3.globs = w.globs ∧
          getEnvVar w3.env "DVLN_LOGFILE_OFF" = getEnvVar w.env "DVLN_LOGFILE_OFF" ∧
          w3.outSt.screenThresh = levelString2Level (w.globs.getString "screenlevel") ∧
          w3.outSt.logfileThresh = Level.discard := by
      refine ⟨_, rfl, ?_, ?_, ?_, ?_⟩
      · rw [forwardApiPrettySettings_globs, forwardOutEnvOverrides_globs, hw1g]
      · rw [show (forwardApiPrettySettings (forwardOutEnvOverrides w1)).env
            = (forwardOutEnvOverrides w1).env from forwardApiPrettySettings_env _,
          forwardOutEnvOverrides_getEnvVar_off, hw1env]
      · rw [forwardApiPrettySettings_outSt, forwardOutEnvOverrides_outSt, hw1scr]
      · rw [forwardApiPrettySettings_outSt, forwardOutEnvOverrides_outSt, hw1log, h0]
    have hr1' : w3.globs.getString "record" ≠ "" := by rw [hw3g]; exact hr1
    have hr2' : w3.globs.getString "record" ≠ "off" := by rw [hw3g]; exact hr2
    have hrec := handleRecordSetting_active_discard w3 hw3log hr1' hr2'
    have hfinal : adjustOutLevels w = handleLogfileOffEnv (handleRecordSetting w3) := by
      rw [adjustOutLevels, h1, h3]
    have hoffcond : (getEnvVar (handleRecordSetting w3).env "DVLN_LOGFILE_OFF" == "1") = false := by
      rw [hrec.2.2, hw3env]
      simpa using henv
    rw [hfinal]
    simp only [handleLogfileOffEnv, hoffcond, Bool.false_eq_true, if_false]
    refine ⟨?_, ?_⟩
    · rw [hrec.1, hw3scr]
    · rw [hrec.2.1, hw3g]

/-- A run with everything at registry defaults except `--record=tmp`
typed on the command line (the pre-pass pushed it into the
explicit-CLI layer). -/
def recordTmpWorld : World :=
  { globs := { dvlnRegistry with pflagL := [("record", GVal.s "tmp")] } }

set_option maxHeartbeats 2000000 in
/-- C2 witness: with debug/verbose/quiet all at their false defaults
and recording active, no special branch fires and both thresholds end
at the resolved (default `Info`) screen/logfile level settings; and the
branch selector picks the quiet branch exactly when only quiet is
set. -/
theorem C2_output_level_controller_witness :
    outLevelBranch false false true = OutBranch.quietB ∧
    (adjustOutLevels recordTmpWorld).outSt.screenThresh = Level.info ∧
    (adjustOutLevels recordTmpWorld).outSt.logfileThresh = Level.info := by
  have h3 := C2_output_level_controller.2.2 recordTmpWorld rfl
    (by decide) (by decide) (by decide) (by decide)
  refine ⟨(C2_output_level_controller.1 false false true).2.2.2.1.mpr ⟨rfl, rfl, rfl⟩, ?_, ?_⟩
  · rw [h3.1]
    decide
  · rw [h3.2]
    decide

/-! ## Shape lemmas: what each stage can possibly change -/

theorem enableExtendedScreenPrefix_shape (w : World) :
    ∃ e, enableExtendedScreenPrefix w = { w with env := e } := by
  simp only [enableExtendedScreenPrefix]
  split_ifs <;> exact ⟨_, rfl⟩

theorem adjustVerbosityLevels_shape (w : World) :
    ∃ st lt e, adjustVerbosityLevels w
      = { w with outSt := { w.outSt with screenThresh := st, logfileThresh := lt }, env := e } := by
  simp only [adjustVerbosityLevels, enableExtendedScreenPrefix]
  split_ifs <;> exact ⟨_, _, _, rfl⟩

theorem forwardEnvOverride_shape (w : World) (s d : String) :
    ∃ e, forwardEnvOverride w s d = { w with env := e } := by
  simp only [forwardEnvOverride]
  split_ifs <;> exact ⟨_, rfl⟩

theorem forwardEnvOverride_apiSt (w : World) (s d : String) :
    (forwardEnvOverride w s d).apiSt = w.apiSt := by
  simp only [forwardEnvOverride]
  split_ifs <;> rfl

theorem forwardEnvOverride_homeDir (w : World) (s d : String) :
    (forwardEnvOverride w s d).homeDir = w.homeDir := by
  simp only [forwardEnvOverride]
  split_ifs <;> rfl

theorem forwardEnvOverride_tmpLogfileMsg (w : World) (s d : String) :
    (forwardEnvOverride w s d).tmpLogfileMsg = w.tmpLogfileMsg := by
  simp only [forwardEnvOverride]
  split_ifs <;> rfl

theorem forwardEnvOverride_tmpLogfileActive (w : World) (s d : String) :
    (forwardEnvOverride w s d).tmpLogfileActive = w.tmpLogfileActive := by
  simp only [forwardEnvOverride]
  split_ifs <;> rfl

theorem forwardOutEnvOverrides_apiSt (w : World) :
    (forwardOutEnvOverrides w).apiSt = w.apiSt := by
  simp only [forwardOutEnvOverrides]
  simp [forwardEnvOverride_apiSt]

theorem forwardOutEnvOverrides_homeDir (w : World) :
    (forwardOutEnvOverrides w).homeDir = w.homeDir := by
  simp only [forwardOutEnvOverrides]
  simp [forwardEnvOverride_homeDir]

theorem forwardOutEnvOverrides_tmpLogfileMsg (w : World) :
    (forwardOutEnvOverrides w).tmpLogfileMsg = w.tmpLogfileMsg := by
  simp only [forwardOutEnvOverrides]
  simp [forwardEnvOverride_tmpLogfileMsg]

theorem forwardOutEnvOverrides_tmpLogfileActive (w : World) :
    (forwardOutEnvOverrides w).tmpLogfileActive = w.tmpLogfileActive := by
  simp only [forwardOutEnvOverrides]
  simp [forwardEnvOverride_tmpLogfileActive]

theorem forwardApiPrettySettings_shape (w : World) :
    ∃ a p, forwardApiPrettySettings w = { w with apiSt := a, prettySt := p } :=
  ⟨_, _, rfl⟩

theorem handleLogfileOffEnv_shape (w : World) :
    ∃ lt, handleLogfileOffEnv w = { w with outSt := { w.outSt with logfileThresh := lt } } := by
  simp only [handleLogfileOffEnv]
  split_ifs <;> exact ⟨_, rfl⟩

theorem absPathify_no_tilde (homeDir p : String) (hhead : p.data.head? = some '/') :
    absPathify homeDir p = p := by
  simp only [absPathify, hhead]
  simp

theorem forwardApiPrettySettings_storedNote (w : World) :
    (forwardApiPrettySettings w).apiSt.storedNote = w.apiSt.storedNote := rfl

theorem forwardApiPrettySettings_homeDir (w : World) :
    (forwardApiPrettySettings w).homeDir = w.homeDir := rfl

theorem forwardApiPrettySettings_tmpLogfileMsg (w : World) :
    (forwardApiPrettySettings w).tmpLogfileMsg = w.tmpLogfileMsg := rfl

theorem forwardApiPrettySettings_tmpLogfileActive (w : World) :
    (forwardApiPrettySettings w).tmpLogfileActive = w.tmpLogfileActive := rfl

theorem handleLogfileOffEnv_rest (w : World) :
    (handleLogfileOffEnv w).globs = w.globs ∧
    (handleLogfileOffEnv w).outSt.tempAllocs = w.outSt.tempAllocs ∧
    (handleLogfileOffEnv w).outSt.tmpCounter = w.outSt.tmpCounter ∧
    (handleLogfileOffEnv w).outSt.logFileTarget = w.outSt.logFileTarget ∧
    (handleLogfileOffEnv w).outSt.deferFnSet = w.outSt.deferFnSet ∧
    (handleLogfileOffEnv w).tmpLogfileActive = w.tmpLogfileActive ∧
    (handleLogfileOffEnv w).homeDir = w.homeDir ∧
    (handleLogfileOffEnv w).tmpLogfileMsg = w.tmpLogfileMsg ∧
    (handleLogfileOffEnv w).apiSt = w.apiSt := by
  simp only [handleLogfileOffEnv]
  split_ifs <;> exact ⟨rfl, rfl, rfl, rfl, rfl, rfl, rfl, rfl, rfl⟩

/-- What the temp-record branch does on entry with no temp logfile
active: one allocation, `record` replaced by the real path with its
explicit-CLI entry cleared, and the look-dependent note handling. -/
theorem recordTempBranch_spec (y : World) (hYact : y.tmpLogfileActive = false) :
    (recordTempBranch y).globs
      = (y.globs.set "record" (GVal.s (tmpLogPath y.outSt))).clearPFlag "record" ∧
    (recordTempBranch y).outSt.tempAllocs = y.outSt.tempAllocs + 1 ∧
    (recordTempBranch y).outSt.tmpCounter = y.outSt.tmpCounter + 1 ∧
    (recordTempBranch y).outSt.logFileTarget = some (tmpLogPath y.outSt) ∧
    (recordTempBranch y).tmpLogfileActive = true ∧
    (recordTempBranch y).homeDir = y.homeDir ∧
    (recordTempBranch y).outSt.logfileThresh = y.outSt.logfileThresh ∧
    ((y.globs.getString "look" == "json") = false →
      (recordTempBranch y).tmpLogfileMsg = "Temp output logfile: " ++ tmpLogPath y.outSt ∧
      (recordTempBranch y).outSt.deferFnSet = true ∧
      (recordTempBranch y).apiSt = y.apiSt) ∧
    ((y.globs.getString "look" == "json") = true →
      (recordTempBranch y).apiSt.storedNote
        = some ⟨"Temp output logfile: " ++ tmpLogPath y.outSt, 101, level2String Level.note⟩ ∧
      (recordTempBranch y).apiSt.storedWarnings = y.apiSt.storedWarnings ∧
      (recordTempBranch y).tmpLogfileMsg = "" ∧
      (recordTempBranch y).outSt.deferFnSet = y.outSt.deferFnSet) := by
  simp only [recordTempBranch]
  rw [hYact, if_pos rfl]
  split_ifs with hl
  · have hl' : (y.globs.getString "look" == "json") = true := hl
    refine ⟨rfl, rfl, rfl, rfl, rfl, rfl, rfl, ?_, ?_⟩
    · intro hx
      rw [hx] at hl'
      cases hl'
    · intro _
      exact ⟨rfl, rfl, rfl, rfl⟩
  · have hl' : (y.globs.getString "look" == "json") = false := by
      have : ¬((y.globs.getString "look" == "json") = true) := hl
      simpa using this
    refine ⟨rfl, rfl, rfl, rfl, rfl, rfl, rfl, ?_, ?_⟩
    · intro _
      exact ⟨rfl, rfl, rfl⟩
    · intro hx
      rw [hx] at hl'
      cases hl'

/-- The tail of `handleRecordSetting` plus `handleLogfileOffEnv` only
ever touches the logfile threshold. -/
theorem handleRecordFinish_rest (b : World) (lv : Level) :
    (handleLogfileOffEnv (if b.outSt.logfileThresh = Level.discard
        then { b with outSt := { b.outSt with logfileThresh := lv } } else b)).globs = b.globs ∧
    (handleLogfileOffEnv (if b.outSt.logfileThresh = Level.discard
        then { b with outSt := { b.outSt with logfileThresh := lv } } else b)).outSt.tempAllocs
      = b.outSt.tempAllocs ∧
    (handleLogfileOffEnv (if b.outSt.logfileThresh = Level.discard
        then { b with outSt := { b.outSt with logfileThresh := lv } } else b)).outSt.tmpCounter
      = b.outSt.tmpCounter ∧
    (handleLogfileOffEnv (if b.outSt.logfileThresh = Level.discard
        then { b with outSt := { b.outSt with logfileThresh := lv } } else b)).outSt.logFileTarget
      = b.outSt.logFileTarget ∧
    (handleLogfileOffEnv (if b.outSt.logfileThresh = Level.discard
        then { b with outSt := { b.outSt with logfileThresh := lv } } else b)).outSt.deferFnSet
      = b.outSt.deferFnSet ∧
    (handleLogfileOffEnv (if b.outSt.logfileThresh = Level.discard
        then { b with outSt := { b.outSt with logfileThresh := lv } } else b)).tmpLogfileActive
      = b.tmpLogfileActive ∧
    (handleLogfileOffEnv (if b.outSt.logfileThresh = Level.discard
        then { b with outSt := { b.outSt with logfileThresh := lv } } else b)).homeDir
      = b.homeDir ∧
    (handleLogfileOffEnv (if b.outSt.logfileThresh = Level.discard
        then { b with outSt := { b.outSt with logfileThresh := lv } } else b)).tmpLogfileMsg
      = b.tmpLogfileMsg ∧
    (handleLogfileOffEnv (if b.outSt.logfileThresh = Level.discard
        then { b with outSt := { b.outSt with logfileThresh := lv } } else b)).apiSt
      = b.apiSt := by
  by_cases hd : b.outSt.logfileThresh = Level.discard
  · rw [if_pos hd]
    exact handleLogfileOffEnv_rest { b with outSt := { b.outSt with logfileThresh := lv } }
  · rw [if_neg hd]
    exact handleLogfileOffEnv_rest b

/-- First entry into `adjustOutLevels` with `record` resolving to
`temp`/`tmp` and no temp logfile active yet: exactly one temp-file
allocation happens, the settings store is updated to hold the real path
under `record` with the explicit-CLI entry cleared, and the note is
either deferred to exit (text) or stored in the `api` response with the
pending screen note emptied (json). -/
theorem adjustOutLevels_temp_first (w : World)
    (hrec : w.globs.getString "record" = "temp" ∨ w.globs.getString "record" = "tmp")
    (hact : w.tmpLogfileActive = false) :
    (adjustOutLevels w).globs
      = (w.globs.set "record" (GVal.s (tmpLogPath w.outSt))).clearPFlag "record" ∧
    (adjustOutLevels w).outSt.tempAllocs = w.outSt.tempAllocs + 1 ∧
    (adjustOutLevels w).outSt.tmpCounter = w.outSt.tmpCounter + 1 ∧
    (adjustOutLevels w).outSt.logFileTarget = some (tmpLogPath w.outSt) ∧
    (adjustOutLevels w).tmpLogfileActive = true ∧
    (adjustOutLevels w).homeDir = w.homeDir ∧
    (w.globs.getString "look" ≠ "json" →
      (adjustOutLevels w).tmpLogfileMsg = "Temp output logfile: " ++ tmpLogPath w.outSt ∧
      (adjustOutLevels w).outSt.deferFnSet = true ∧
      (adjustOutLevels w).apiSt.storedNote = w.apiSt.storedNote) ∧
    (w.globs.getString "look" = "json" →
      (adjustOutLevels w).apiSt.storedNote
        = some ⟨"Temp output logfile: " ++ tmpLogPath w.outSt, 101, level2String Level.note⟩ ∧
      (adjustOutLevels w).tmpLogfileMsg = "" ∧
      (adjustOutLevels w).outSt.deferFnSet = w.outSt.deferFnSet) := by
  rcases adjustVerbosityLevels_shape w with ⟨st, lt, e, h1⟩
  obtain ⟨Y, hY, hYg, hYta, hYtc, hYlft, hYdfs, hYnote, hYhome, hYmsg, hYact⟩ :
      ∃ Y, forwardApiPrettySettings (forwardOutEnvOverrides
          { w with outSt := { w.outSt with screenThresh := st, logfileThresh := lt }, env := e })
        = Y ∧
        Y.globs = w.globs ∧
        Y.outSt.tempAllocs = w.outSt.tempAllocs ∧
        Y.outSt.tmpCounter = w.outSt.tmpCounter ∧
        Y.outSt.logFileTarget = w.outSt.logFileTarget ∧
        Y.outSt.deferFnSet = w.outSt.deferFnSet ∧
        Y.apiSt.storedNote = w.apiSt.storedNote ∧
        Y.homeDir = w.homeDir ∧
        Y.tmpLogfileMsg = w.tmpLogfileMsg ∧
        Y.tmpLogfileActive = false := by
    refine ⟨_, rfl, ?_, ?_, ?_, ?_, ?_, ?_, ?_, ?_, ?_⟩
    · rw [forwardApiPrettySettings_globs, forwardOutEnvOverrides_globs]
    · rw [forwardApiPrettySettings_outSt, forwardOutEnvOverrides_outSt]
    · rw [forwardApiPrettySettings_outSt, forwardOutEnvOverrides_outSt]
    · rw [forwardApiPrettySettings_outSt, forwardOutEnvOverrides_outSt]
    · rw [forwardApiPrettySettings_outSt, forwardOutEnvOverrides_outSt]
    · rw [forwardApiPrettySettings_storedNote, forwardOutEnvOverrides_apiSt]
    · rw [forwardApiPrettySettings_homeDir, forwardOutEnvOverrides_homeDir]
    · rw [forwardApiPrettySettings_tmpLogfileMsg, forwardOutEnvOverrides_tmpLogfileMsg]
    · rw [forwardApiPrettySettings_tmpLogfileActive, forwardOutEnvOverrides_tmpLogfileActive]
      exact hact
  have hgoal : adjustOutLevels w = handleLogfileOffEnv (handleRecordSetting Y) := by
    rw [adjustOutLevels, h1, hY]
  have hrecY : Y.globs.getString "record" = w.globs.getString "record" := by rw [hYg]
  have hlookY : Y.globs.getString "look" = w.globs.getString "look" := by rw [hYg]
  have hc1 : Y.globs.getString "record" ≠ "" ∧ Y.globs.getString "record" ≠ "off" := by
    rw [hrecY]
    rcases hrec with h | h <;> rw [h] <;> exact ⟨by decide, by decide⟩
  have hc2 : (Y.globs.getString "record" == "temp" || Y.globs.getString "record" == "tmp")
      = true := by
    rw [hrecY]
    rcases hrec with h | h <;> rw [h] <;> rfl
  have hpath : tmpLogPath Y.outSt = tmpLogPath w.outSt := by
    simp only [tmpLogPath, hYtc]
  have hHRS : handleRecordSetting Y
      = (if (recordTempBranch Y).outSt.logfileThresh = Level.discard
          then { recordTempBranch Y with outSt := { (recordTempBranch Y).outSt with
            logfileThresh := levelString2Level ((recordTempBranch Y).globs.getString "logfilelevel") } }
          else recordTempBranch Y) := by
    simp only [handleRecordSetting]
    rw [if_pos hc1, if_pos hc2]
  obtain ⟨hg, hta, htc, hlft, hdfs, hact', hhome', hmsg', hapi'⟩ :=
    handleRecordFinish_rest (recordTempBranch Y)
      (levelString2Level ((recordTempBranch Y).globs.getString "logfilelevel"))
  obtain ⟨sg, sta, stc, slft, sact, shome, _, stext, sjson⟩ := recordTempBranch_spec Y hYact
  rw [hgoal, hHRS]
  refine ⟨?_, ?_, ?_, ?_, ?_, ?_, ?_, ?_⟩
  · rw [hg, sg, hYg, hpath]
  · rw [hta, sta, hYta]
  · rw [htc, stc, hYtc]
  · rw [hlft, slft, hpath]
  · rw [hact', sact]
  · rw [hhome', shome, hYhome]
  · intro hl
    have hlB : (Y.globs.getString "look" == "json") = false := by
      rw [hlookY]
      exact beq_eq_false_iff_ne.mpr hl
    obtain ⟨m1, m2, m3⟩ := stext hlB
    refine ⟨?_, ?_, ?_⟩
    · rw [hmsg', m1, hpath]
    · rw [hdfs, m2]
    · rw [hapi', m3, hYnote]
  · intro hl
    have hlB : (Y.globs.getString "look" == "json") = true := by
      rw [hlookY, hl]
      rfl
    obtain ⟨m1, _, m2, m3⟩ := sjson hlB
    refine ⟨?_, ?_, ?_⟩
    · rw [hapi', m1, hpath]
    · rw [hmsg', m2]
    · rw [hdfs, m3, hYdfs]

theorem keyEq_self (n : String) : keyEq n n = true := by simp [keyEq]

theorem lookupKey_cons_self {α : Type} (n : String) (v : α) (l : List (String × α)) :
    lookupKey ((n, v) :: l) n = some v := by
  simp [lookupKey, List.find?, keyEq_self]

/-- The `globs.Set` + `globs.ClearPFlag` replacement pattern really
wins: the next `get` of that name sees the programmatic value. -/
theorem Globs.getVal_set_clear_self (g : Globs) (n : String) (v : GVal)
    (hscope : g.scopeOf n = Scope.cliGlobal) :
    ((g.set n v).clearPFlag n).getVal n = some v := by
  unfold Globs.getVal
  rw [show ((g.set n v).clearPFlag n).scopeOf n = Scope.cliGlobal from hscope]
  simp [Globs.set, Globs.clearPFlag, lookupKey_removeKey_self, lookupKey_cons_self]

theorem Globs.getString_of_s (g : Globs) (n v : String) (h : g.getVal n = some (GVal.s v)) :
    g.getString n = v := by
  simp [Globs.getString, h, gvalToString]

/-- The explicit-path record branch when the path has no leading `~`
and is not under the home directory: it only opens the logfile target. -/
theorem recordPathBranch_no_tilde (b : World) (p : String)
    (hhead : p.data.head? = some '/')
    (hhome : ((b.homeDir ++ "/").data.isPrefixOf p.data) = false) :
    recordPathBranch b p = { b with outSt := { b.outSt with logFileTarget := some p } } := by
  simp only [recordPathBranch]
  rw [absPathify_no_tilde _ _ hhead, hhome]
  simp

/-- Re-entering `adjustOutLevels` after the temp path replaced
`record`: no further allocation, no settings change — the invocation is
a no-op apart from (re)opening the same logfile target. -/
theorem adjustOutLevels_path_noop (u : World) (s : String)
    (hrecv : u.globs.getVal "record" = some (GVal.s ("/tmp/dvln." ++ s)))
    (hhome : ((u.homeDir ++ "/").data.isPrefixOf ("/tmp/dvln." ++ s).data) = false) :
    (adjustOutLevels u).globs = u.globs ∧
    (adjustOutLevels u).outSt.tempAllocs = u.outSt.tempAllocs ∧
    (adjustOutLevels u).outSt.tmpCounter = u.outSt.tmpCounter ∧
    (adjustOutLevels u).outSt.logFileTarget = some ("/tmp/dvln." ++ s) ∧
    (adjustOutLevels u).tmpLogfileActive = u.tmpLogfileActive ∧
    (adjustOutLevels u).homeDir = u.homeDir := by
  have hrec : u.globs.getString "record" = "/tmp/dvln." ++ s :=
    Globs.getString_of_s _ _ _ hrecv
  have hhead : ("/tmp/dvln." ++ s).data.head? = some '/' := by
    simp [String.data_append]
  have hne1 : ("/tmp/dvln." ++ s) ≠ "" := by
    intro h
    have h2 := congrArg String.data h
    simp [String.data_append] at h2
  have hne2 : ("/tmp/dvln." ++ s) ≠ "off" := by
    intro h
    have h2 := congrArg String.data h
    simp [String.data_append] at h2
  have hb2 : (("/tmp/dvln." ++ s) == "temp" || ("/tmp/dvln." ++ s) == "tmp") = false := by
    have t1 : ("/tmp/dvln." ++ s) ≠ "temp" := by
      intro h
      have h2 := congrArg String.data h
      simp [String.data_append] at h2
    have t2 : ("/tmp/dvln." ++ s) ≠ "tmp" := by
      intro h
      have h2 := congrArg String.data h
      simp [String.data_append] at h2
    rw [beq_eq_false_iff_ne.mpr t1, beq_eq_false_iff_ne.mpr t2]
    rfl
  rcases adjustVerbosityLevels_shape u with ⟨st, lt, e, h1⟩
  obtain ⟨Y, hY, hYg, hYta, hYtc, hYact, hYhome⟩ :
      ∃ Y, forwardApiPrettySettings (forwardOutEnvOverrides
          { u with outSt := { u.outSt with screenThresh := st, logfileThresh := lt }, env := e })
        = Y ∧
        Y.globs = u.globs ∧
        Y.outSt.tempAllocs = u.outSt.tempAllocs ∧
        Y.outSt.tmpCounter = u.outSt.tmpCounter ∧
        Y.tmpLogfileActive = u.tmpLogfileActive ∧
        Y.homeDir = u.homeDir := by
    refine ⟨_, rfl, ?_, ?_, ?_, ?_, ?_⟩
    · rw [forwardApiPrettySettings_globs, forwardOutEnvOverrides_globs]
    · rw [forwardApiPrettySettings_outSt, forwardOutEnvOverrides_outSt]
    · rw [forwardApiPrettySettings_outSt, forwardOutEnvOverrides_outSt]
    · rw [forwardApiPrettySettings_tmpLogfileActive, forwardOutEnvOverrides_tmpLogfileActive]
    · rw [forwardApiPrettySettings_homeDir, forwardOutEnvOverrides_homeDir]
  have hgoal : adjustOutLevels u = handleLogfileOffEnv (handleRecordSetting Y) := by
    rw [adjustOutLevels, h1, hY]
  have hrecY : Y.globs.getString "record" = "/tmp/dvln." ++ s := by
    rw [hYg]
    exact hrec
  have hhomeY : ((Y.homeDir ++ "/").data.isPrefixOf ("/tmp/dvln." ++ s).data) = false := by
    rw [hYhome]
    exact hhome
  have hpb := recordPathBranch_no_tilde Y ("/tmp/dvln." ++ s) hhead hhomeY
  have hHRS : handleRecordSetting Y
      = (if (recordPathBranch Y ("/tmp/dvln." ++ s)).outSt.logfileThresh = Level.discard
          then { recordPathBranch Y ("/tmp/dvln." ++ s) with outSt := { (recordPathBranch Y ("/tmp/dvln." ++ s)).outSt with logfileThresh := levelString2Level ((recordPathBranch Y ("/tmp/dvln." ++ s)).globs.getString "logfilelevel") } }
          else recordPathBranch Y ("/tmp/dvln." ++ s)) := by
    simp only [handleRecordSetting]
    rw [hrecY, if_pos ⟨hne1, hne2⟩, hb2]
    simp only [Bool.false_eq_true, if_false]
  obtain ⟨fg, fta, ftc, flft, _, fact, fhome, _, _⟩ :=
    handleRecordFinish_rest (recordPathBranch Y ("/tmp/dvln." ++ s))
      (levelString2Level ((recordPathBranch Y ("/tmp/dvln." ++ s)).globs.getString "logfilelevel"))
  rw [hgoal, hHRS]
  refine ⟨?_, ?_, ?_, ?_, ?_, ?_⟩
  · rw [fg, hpb]
    exact hYg
  · rw [fta, hpb]
    exact hYta
  · rw [ftc, hpb]
    exact hYtc
  · rw [flft, hpb]
  · rw [fact, hpb]
    exact hYact
  · rw [fhome, hpb]
    exact hYhome

/-- C4: temp log-file allocation is idempotent within one run — with
`record` resolved to `temp`/`tmp` and no temp logfile active, any
number of further passes through `adjustOutLevels` allocates the
process-temp log file exactly once; every invocation after the first
leaves the settings store (and the recorded path under `record`)
unchanged (`adjustOutLevels`, `cmds/dvln.go`). -/
theorem C4_temp_logfile_idempotent (w : World)
    (hrec : w.globs.getString "record" = "temp" ∨ w.globs.getString "record" = "tmp")
    (hact : w.tmpLogfileActive = false)
    (hallocs : w.outSt.tempAllocs = 0)
    (hscope : w.globs.scopeOf "record" = Scope.cliGlobal)
    (hhome : ((w.homeDir ++ "/").data.isPrefixOf (tmpLogPath w.outSt).data) = false) :
    ∀ n : Nat,
      (adjustOutLevels^[n + 1] w).outSt.tempAllocs = 1 ∧
      (adjustOutLevels^[n + 1] w).globs.getString "record" = tmpLogPath w.outSt ∧
      (adjustOutLevels^[n + 1] w).globs = (adjustOutLevels w).globs ∧
      (adjustOutLevels^[n + 1] w).outSt.logFileTarget = some (tmpLogPath w.outSt) := by
  obtain ⟨f1, f2, _, f4, _, f6, _, _⟩ := adjustOutLevels_temp_first w hrec hact
  have hgv : (adjustOutLevels w).globs.getVal "record"
      = some (GVal.s (tmpLogPath w.outSt)) := by
    rw [f1]
    exact Globs.getVal_set_clear_self _ _ _ hscope
  have hgv' : (adjustOutLevels w).globs.getVal "record"
      = some (GVal.s ("/tmp/dvln." ++ toString w.outSt.tmpCounter)) := hgv
  have hhome' : ((w.homeDir ++ "/").data.isPrefixOf
      ("/tmp/dvln." ++ toString w.outSt.tmpCounter).data) = false := hhome
  intro n
  have main : ∀ m : Nat,
      (adjustOutLevels^[m + 1] w).globs = (adjustOutLevels w).globs ∧
      (adjustOutLevels^[m + 1] w).outSt.tempAllocs = 1 ∧
      (adjustOutLevels^[m + 1] w).outSt.logFileTarget = some (tmpLogPath w.outSt) ∧
      (adjustOutLevels^[m + 1] w).homeDir = w.homeDir := by
    intro m
    induction m with
    | zero =>
      rw [Nat.zero_add, Function.iterate_one]
      refine ⟨rfl, ?_, f4, f6⟩
      rw [f2, hallocs]
    | succ k ih =>
      rw [show k + 1 + 1 = (k + 1) + 1 from rfl, Function.iterate_succ_apply']
      have hstep := adjustOutLevels_path_noop (adjustOutLevels^[k + 1] w)
        (toString w.outSt.tmpCounter)
        (by rw [ih.1]; exact hgv')
        (by rw [ih.2.2.2]; exact hhome')
      refine ⟨?_, ?_, ?_, ?_⟩
      · rw [hstep.1, ih.1]
      · rw [hstep.2.1, ih.2.1]
      · exact hstep.2.2.2.1
      · rw [hstep.2.2.2.2.2, ih.2.2.2]
  refine ⟨(main n).2.1, ?_, (main n).1, (main n).2.2.1⟩
  rw [(main n).1]
  exact Globs.getString_of_s _ _ _ hgv

/-- A run with `--record=tmp` typed on the command line and a real home
directory, everything else at registry defaults. -/
def c4World : World :=
  { globs := { dvlnRegistry with pflagL := [("record", GVal.s "tmp")] }
    homeDir := "/home/tester" }

set_option maxRecDepth 8000 in
set_option maxHeartbeats 2000000 in
/-- C4 witness: on a concrete `--record=tmp` run, a second pass through
`adjustOutLevels` still shows exactly one allocation, the allocated
path under `record`, and a settings store identical to the one after
the first pass. -/
theorem C4_temp_logfile_idempotent_witness :
    (adjustOutLevels^[2] c4World).outSt.tempAllocs = 1 ∧
    (adjustOutLevels^[2] c4World).globs.getString "record" = "/tmp/dvln.0" ∧
    (adjustOutLevels^[2] c4World).globs = (adjustOutLevels c4World).globs := by
  have h := C4_temp_logfile_idempotent c4World (Or.inr (by decide)) rfl rfl
    (by decide) (by decide) 1
  exact ⟨h.1, h.2.1, h.2.2.1⟩

theorem doBeforeExit_emits (w : World) (v : Int) (h : w.tmpLogfileMsg ≠ "") :
    (doBeforeExit w v).outSt.notesEmitted = w.outSt.notesEmitted ++ [w.tmpLogfileMsg] := by
  simp only [doBeforeExit]
  rw [if_pos h]
  split_ifs <;> rfl

theorem doBeforeExit_noop (w : World) (v : Int) (h : w.tmpLogfileMsg = "") :
    doBeforeExit w v = w := by
  simp only [doBeforeExit]
  rw [if_neg (by simp [h])]

/-- C5: when `record` resolves to `temp`/`tmp`, after allocation the
settings store holds the actual temp-file path under `record` — the
explicit-CLI layer entry for that name is cleared so the programmatic
replacement wins — and in text look a note about the path is pending
for emission by the registered exit hook, while in json look the note
is instead stored as structured metadata in the API response and the
exit-time screen note is suppressed because the pending note message
is emptied (`adjustOutLevels` and `doBeforeExit`, `cmds/dvln.go`). -/
theorem C5_record_replacement_and_exit_note (w : World)
    (hrec : w.globs.getString "record" = "temp" ∨ w.globs.getString "record" = "tmp")
    (hact : w.tmpLogfileActive = false)
    (hscope : w.globs.scopeOf "record" = Scope.cliGlobal) :
    lookupKey (adjustOutLevels w).globs.pflagL "record" = none ∧
    (adjustOutLevels w).globs.getString "record" = tmpLogPath w.outSt ∧
    (w.globs.getString "look" ≠ "json" →
      (adjustOutLevels w).tmpLogfileMsg = "Temp output logfile: " ++ tmpLogPath w.outSt ∧
      (adjustOutLevels w).outSt.deferFnSet = true ∧
      (adjustOutLevels w).apiSt.storedNote = w.apiSt.storedNote ∧
      (doBeforeExit (adjustOutLevels w) 0).outSt.notesEmitted
        = (adjustOutLevels w).outSt.notesEmitted
          ++ ["Temp output logfile: " ++ tmpLogPath w.outSt]) ∧
    (w.globs.getString "look" = "json" →
      (adjustOutLevels w).apiSt.storedNote
        = some ⟨"Temp output logfile: " ++ tmpLogPath w.outSt, 101, level2String Level.note⟩ ∧
      (adjustOutLevels w).tmpLogfileMsg = "" ∧
      (adjustOutLevels w).outSt.deferFnSet = w.outSt.deferFnSet ∧
      doBeforeExit (adjustOutLevels w) 0 = adjustOutLevels w) := by
  obtain ⟨f1, _, _, _, _, _, ftext, fjson⟩ := adjustOutLevels_temp_first w hrec hact
  refine ⟨?_, ?_, ?_, ?_⟩
  · rw [f1]
    exact lookupKey_removeKey_self _ _
  · rw [f1]
    exact Globs.getString_of_s _ _ _ (Globs.getVal_set_clear_self _ _ _ hscope)
  · intro hl
    obtain ⟨m1, m2, m3⟩ := ftext hl
    refine ⟨m1, m2, m3, ?_⟩
    have hne : (adjustOutLevels w).tmpLogfileMsg ≠ "" := by
      rw [m1]
      intro hx
      have h2 := congrArg String.data hx
      simp [String.data_append] at h2
    rw [doBeforeExit_emits _ 0 hne, m1]
  · intro hl
    obtain ⟨m1, m2, m3⟩ := fjson hl
    exact ⟨m1, m2, m3, doBeforeExit_noop _ 0 m2⟩

/-- A `--record=tmp` run with json look requested on the command
line. -/
def c5JsonWorld : World :=
  { globs := { dvlnRegistry with
      pflagL := [("record", GVal.s "tmp"), ("look", GVal.s "json")] } }

set_option maxRecDepth 8000 in
set_option maxHeartbeats 2000000 in
/-- C5 witness: in a concrete text-look run the real path lands under
`record` with the CLI entry cleared and the exit hook emits the note;
in a concrete json-look run the note is stored in the API response and
the exit hook emits nothing. -/
theorem C5_record_replacement_and_exit_note_witness :
    lookupKey (adjustOutLevels c4World).globs.pflagL "record" = none ∧
    (adjustOutLevels c4World).globs.getString "record" = "/tmp/dvln.0" ∧
    (doBeforeExit (adjustOutLevels c4World) 0).outSt.notesEmitted
      = ["Temp output logfile: /tmp/dvln.0"] ∧
    (adjustOutLevels c5JsonWorld).apiSt.storedNote
      = some ⟨"Temp output logfile: /tmp/dvln.0", 101, "Note"⟩ ∧
    (adjustOutLevels c5JsonWorld).tmpLogfileMsg = "" ∧
    doBeforeExit (adjustOutLevels c5JsonWorld) 0 = adjustOutLevels c5JsonWorld := by
  have ht := C5_record_replacement_and_exit_note c4World (Or.inr (by decide)) rfl (by decide)
  have hj := C5_record_replacement_and_exit_note c5JsonWorld (Or.inr (by decide)) rfl (by decide)
  obtain ⟨t1, t2, t3, -⟩ := ht
  obtain ⟨-, -, -, j4⟩ := hj
  obtain ⟨tm1, _, _, tm4⟩ := t3 (by decide)
  obtain ⟨jm1, jm2, _, jm4⟩ := j4 (by decide)
  refine ⟨t1, t2, ?_, jm1, jm2, jm4⟩
  rw [tm4]
  have hnotes : (adjustOutLevels c4World).outSt.notesEmitted = [] := by decide
  rw [hnotes]
  rfl

/-! ## The JSON message interceptor (`Execute` registration and
`handleLookJSONMsgs.FormatMessage`, `cmds/dvln.go`) -/

/-- Modelled from the spec: `api.FatalJSONMsg` renders a complete
structured JSON error response for a dying message. -/
def fatalJSONMsg (apiver : String) (m : ApiMsg) : String :=
  "\x7b\"apiVersion\": \"" ++ apiver ++ "\", \"error\": \x7b\"message\": \"" ++ m.msg
    ++ "\", \"code\": " ++ toString m.code ++ ", \"level\": \"" ++ m.level ++ "\"\x7d\x7d"

/-- `Execute` lines 276-288: the output levels for which the
`handleLookJSONMsgs` formatter is registered — exactly Issue, Error and
Fatal, and only when the resolved `look` is json. -/
def jsonFormatterLevels (look : String) : List Level :=
  if look == "json" then [Level.issue, Level.error, Level.fatal] else []

/-- `handleLookJSONMsgs.FormatMessage` (lines 843-864): pass lower
severities (or non-json look) through unchanged; store a non-dying
message as a warning annotation suppressing screen and logfile output
and return an empty message; render a dying message as a full
structured JSON error response. -/
def FormatMessage (w : World) (msg : String) (outLevel : Level) (code : Int)
    (stack : String) (dying : Bool) : World × String × Nat × Bool :=
  let _ := stack
  let suppressOutputMask : Nat := 0
  let suppressNativePrefixing := false
  let look := w.globs.getString "look"
  if look != "json" || levelLt outLevel Level.issue then
    (w, msg, suppressOutputMask, suppressNativePrefixing)
  else
    let problemMsg : ApiMsg := ⟨msg, code, level2String outLevel⟩
    if dying then
      (w, fatalJSONMsg (w.globs.getString "apiver") problemMsg, suppressOutputMask, true)
    else
      ({ w with apiSt := { w.apiSt with
          storedWarnings := w.apiSt.storedWarnings ++ [(problemMsg, defaultErrCode)] } },
        "", forBoth, true)

/-- C3: the JSON interceptor is registered iff the resolved look is
json, and only for the three highest severity output levels (issue,
error, fatal); on a non-dying message at those levels it returns an
empty message with screen and logfile output suppressed and stores the
message as a warning annotation (level name plus numeric code); on a
dying message it returns the complete structured JSON error response;
any lower level, or a non-json look, passes through unchanged. -/
theorem C3_json_interceptor :
    (∀ (look : String) (l : Level),
      l ∈ jsonFormatterLevels look
        ↔ look = "json" ∧ (l = Level.issue ∨ l = Level.error ∨ l = Level.fatal)) ∧
    (∀ l : Level, l ≠ Level.discard →
      ((l = Level.issue ∨ l = Level.error ∨ l = Level.fatal) ↔ Level.issue.rank ≤ l.rank)) ∧
    (∀ (w : World) (msg : String) (l : Level) (code : Int) (stack : String),
      w.globs.getString "look" = "json" → Level.issue.rank ≤ l.rank →
      FormatMessage w msg l code stack false
        = ({ w with apiSt := { w.apiSt with storedWarnings :=
            w.apiSt.storedWarnings ++ [(⟨msg, code, level2String l⟩, defaultErrCode)] } },
           "", forBoth, true)) ∧
    (∀ (w : World) (msg : String) (l : Level) (code : Int) (stack : String),
      w.globs.getString "look" = "json" → Level.issue.rank ≤ l.rank →
      FormatMessage w msg l code stack true
        = (w, fatalJSONMsg (w.globs.getString "apiver") ⟨msg, code, level2String l⟩, 0, true)) ∧
    (∀ (w : World) (msg : String) (l : Level) (code : Int) (stack : String) (dying : Bool),
      (w.globs.getString "look" ≠ "json" ∨ l.rank < Level.issue.rank) →
      FormatMessage w msg l code stack dying = (w, msg, 0, false)) := by
  refine ⟨?_, ?_, ?_, ?_, ?_⟩
  · intro look l
    simp only [jsonFormatterLevels]
    by_cases hj : (look == "json") = true
    · have hl : look = "json" := by simpa using hj
      subst hl
      rw [if_pos hj]
      cases l <;> simp
    · have hb : (look == "json") = false := by simpa using hj
      have hl : ¬(look = "json") := by simpa using hj
      rw [hb]
      simp [hl]
  · intro l hl
    cases l <;> first
      | exact absurd rfl hl
      | decide
  · intro w msg l code stack hlook hrank
    have hcond : ((w.globs.getString "look" != "json") || levelLt l Level.issue) = false := by
      rw [hlook]
      have : levelLt l Level.issue = false := by
        simp [levelLt, Nat.not_lt.mpr hrank]
      rw [this]
      rfl
    simp only [FormatMessage]
    rw [hcond]
    rfl
  · intro w msg l code stack hlook hrank
    have hcond : ((w.globs.getString "look" != "json") || levelLt l Level.issue) = false := by
      rw [hlook]
      have : levelLt l Level.issue = false := by
        simp [levelLt, Nat.not_lt.mpr hrank]
      rw [this]
      rfl
    simp only [FormatMessage]
    rw [hcond]
    rfl
  · intro w msg l code stack dying hor
    have hcond : ((w.globs.getString "look" != "json") || levelLt l Level.issue) = true := by
      rcases hor with h | h
      · rw [bne_iff_ne.mpr h, Bool.true_or]
      · have : levelLt l Level.issue = true := by
          simpa [levelLt] using h
        rw [this, Bool.or_true]
    simp only [FormatMessage]
    rw [hcond]
    rfl

/-- A run with `--look=json` typed on the command line, everything else
at registry defaults. -/
def c3World : World :=
  { globs := { dvlnRegistry with pflagL := [("look", GVal.s "json")] } }

set_option maxRecDepth 8000 in
set_option maxHeartbeats 2000000 in
/-- C3 witness: with look json, the error level is among the registered
interceptor levels; a concrete non-dying error is stored as a warning
annotation and suppressed for both destinations with an empty message;
a concrete dying fatal becomes the structured JSON error response; and
a concrete info-level message passes through unchanged. -/
theorem C3_json_interceptor_witness :
    Level.error ∈ jsonFormatterLevels "json" ∧
    FormatMessage c3World "boom" Level.error 42 "" false
      = ({ c3World with apiSt := { c3World.apiSt with storedWarnings := [(⟨"boom", 42, "Error"⟩, 100)] } }, "", 3, true) ∧
    FormatMessage c3World "die" Level.fatal 9 "" true
      = (c3World, fatalJSONMsg "" ⟨"die", 9, "Fatal"⟩, 0, true) ∧
    FormatMessage c3World "hello" Level.info 7 "" false = (c3World, "hello", 0, false) := by
  refine ⟨?_, ?_, ?_, ?_⟩
  · exact (C3_json_interceptor.1 "json" Level.error).mpr ⟨rfl, Or.inr (Or.inl rfl)⟩
  · exact C3_json_interceptor.2.2.1 c3World "boom" Level.error 42 "" (by decide) (by decide)
  · exact C3_json_interceptor.2.2.2.1 c3World "die" Level.fatal 9 "" (by decide) (by decide)
  · exact C3_json_interceptor.2.2.2.2 c3World "hello" Level.info 7 "" false (Or.inr (by decide))

/-! ## `dvlnFinalPrep` (`cmds/dvln.go` lines 714-822)

The function is embedded as a chain of named stages in source order
(jobs validation, serve check, look validation with the silent interact
override, version, globs validation/dump, workspace root scan).  The
trace/debug-level progress prints inside the workspace scan are not
modelled; the `globs.Debug()` trace dump emits nothing below trace
threshold and is likewise not an event. -/

/-- Lines 722-729: the help-pointer suffix built from `currentCmd`
(root command name `dvln`). -/
def cmdNameOf (currentCmd : String) : String :=
  if currentCmd ≠ "" then
    (if currentCmd = "dvln" then "" else " " ++ currentCmd)
  else " [subcmd]"

/-- Modelled from the spec: `lib.DvlnVerStr()`, the version banner. -/
def dvlnVerStr : String := "dvln Version: 0.0.1\n"

/-- Modelled from the spec: the `--globs` dump of all resolvable
settings (`fmt.Sprintf("%v", globs.GetSingleton())`). -/
def globsSingletonDump (g : Globs) : String :=
  toString (g.defaults.map Prod.fst)

/-- The jobs validation error text (line 737-738). -/
def jobsErrMsg (jobs cmdName : String) : String :=
  "Jobs value should be a number or 'all', found: " ++ jobs ++ "\n"
    ++ "Please run 'dvln help" ++ cmdName ++ "' for usage\n"

/-- The look validation error text (line 761-762). -/
def lookErrMsg (look cmdName : String) : String :=
  "The --look option (-l) can only be set to 'text' or 'json', found: '" ++ look ++ "'\n"
    ++ "Please run 'dvln help" ++ cmdName ++ "' for usage\n"

/-- The globs validation error text (line 785-786). -/
def globsErrMsg (globsCLI cmdName : String) : String :=
  "The --globs option (-G) can only be set to 'env' or 'cfg', found: '" ++ globsCLI ++ "'\n"
    ++ "Please run 'dvln help" ++ cmdName ++ "' for usage\n"

/-- Lines 797-821: find and bootstrap the workspace root directory;
failures exit with codes 2006/2007, otherwise final prep is complete
and dispatch proceeds (`(false, 0)`). -/
def dvlnFinalPrepWkspc (w : World) (errExit : Int) : World × Bool × Int :=
  let wkspcdir := w.globs.getString "wkspcdir"
  let rootRes := if wkspcdir ≠ "." ∧ wkspcdir ≠ "" then w.wkspcDirArgRes else w.wkspcCwdRes
  match rootRes with
  | .failed e =>
    ({ w with events := w.events
        ++ [.errorExit errExit 2006 ("Unexpected problem scanning for a workspace: " ++ e)] },
      true, errExit)
  | .found rootDir =>
    match w.setRootDirErr with
    | some e =>
      ({ w with wkspcRoot := rootDir, events := w.events
          ++ [.errorExit errExit 2007 ("Unexpected problem setting the workspace root dir: " ++ e)] },
        true, errExit)
    | none => ({ w with wkspcRoot := rootDir }, false, 0)

/-- Lines 783-795: `--globs` accepts `env`/`cfg` (dump and exit 0) and
the test-only `skip` value; any other non-empty value is Issue 2005. -/
def dvlnFinalPrepGlobs (w : World) (cmdName : String) (errExit : Int) : World × Bool × Int :=
  let globsCLI := w.globs.getString "globs"
  if globsCLI ≠ "" ∧ globsCLI ≠ "env" ∧ globsCLI ≠ "cfg" ∧ globsCLI ≠ "skip" then
    ({ w with events := w.events
        ++ [.issueExit errExit 2005 (globsErrMsg globsCLI cmdName)] }, true, errExit)
  else if globsCLI = "env" ∨ globsCLI = "cfg" then
    ({ w with events := w.events
        ++ [.printMsg (globsSingletonDump w.globs), .exitCall 0] }, true, 0)
  else dvlnFinalPrepWkspc w errExit

/-- Lines 771-776: `--version` prints the banner and exits 0. -/
def dvlnFinalPrepVersion (w : World) (cmdName : String) (errExit : Int) : World × Bool × Int :=
  if w.globs.getBool "version" then
    ({ w with events := w.events ++ [.printMsg dvlnVerStr, .exitCall 0] }, true, 0)
  else dvlnFinalPrepGlobs w cmdName errExit

/-- Lines 758-769: look must be `text` or `json` (Issue 2004
otherwise); with json look and interact resolved true, interaction is
silently disabled via a programmatic `Set` with only debug-level
chatter. -/
def dvlnFinalPrepLook (w : World) (cmdName : String) (errExit : Int) : World × Bool × Int :=
  let look := w.globs.getString "look"
  if look ≠ "text" ∧ look ≠ "json" then
    ({ w with events := w.events
        ++ [.issueExit errExit 2004 (lookErrMsg look cmdName)] }, true, errExit)
  else
    let w :=
      if look = "json" ∧ w.globs.getBool "interact" then
        { w with
          events := w.events
            ++ [.debugMsg "Interactive runs are not available for the 'json' output \"look\"",
                .debugMsg "- silently disabling interaction (client may have it set for text output)"],
          globs := w.globs.set "interact" (.b false) }
      else w
    dvlnFinalPrepVersion w cmdName errExit

/-- Lines 751-756: unimplemented serve mode is a fatal message (test
harnesses can make fatal non-fatal, hence the `(true, 0)` return). -/
def dvlnFinalPrepServe (w : World) (cmdName : String) (errExit : Int) : World × Bool × Int :=
  if w.globs.getBool "serve" then
    ({ w with events := w.events
        ++ [.fatalMsg "Serve mode is not available yet, to contribute email 'brady@dvln.org'  :)"] },
      true, 0)
  else dvlnFinalPrepLook w cmdName errExit

/-- Lines 719-721: debug-dump the config file used, if any. -/
def noteConfigFileUsed (w : World) : World :=
  if w.configFileUsed ≠ "" then
    { w with events := w.events ++ [.debugMsg ("Used config file: " ++ w.configFileUsed)] }
  else w

/-- `dvlnFinalPrep` (lines 714-822): validate the easy options and
handle early-exit requests before the `cli` (cobra) `Execute()`
dispatch; returns `(programComplete, exitVal)` alongside the updated
state.  The jobs setting must be a number or `all` (Issue 2003), a
numeric request is clamped to the machine's processing units. -/
def dvlnFinalPrep (w : World) : World × Bool × Int :=
  let w := noteConfigFileUsed w
  let cmdName := cmdNameOf w.currentCmd
  let errExit := errorExitVal
  let numCPU := w.numCPU
  let jobs := w.globs.getString "jobs"
  if jobs ≠ "" ∧ jobs ≠ "all" then
    if (jobs.toInt?).isSome = false then
      ({ w with events := w.events
          ++ [.issueExit errExit 2003 (jobsErrMsg jobs cmdName)] }, true, errExit)
    else
      let numJobs := (jobs.toInt?).getD 0
      let numJobs := if numJobs > numCPU then numCPU else numJobs
      dvlnFinalPrepServe { w with gomaxprocs := numJobs } cmdName errExit
  else
    dvlnFinalPrepServe { w with gomaxprocs := numCPU } cmdName errExit

/-- With a clean config-file state, a valid jobs setting and serve off,
`dvlnFinalPrep` reaches the look validation unchanged (apart from the
`GOMAXPROCS` bookkeeping). -/
theorem dvlnFinalPrep_to_look (w : World)
    (hcfg : w.configFileUsed = "")
    (hjobs : w.globs.getString "jobs" = "" ∨ w.globs.getString "jobs" = "all"
      ∨ ((w.globs.getString "jobs").toInt?).isSome = true)
    (hserve : w.globs.getBool "serve" = false) :
    ∃ w1 : World,
      dvlnFinalPrep w = dvlnFinalPrepLook w1 (cmdNameOf w.currentCmd) errorExitVal ∧
      w1.globs = w.globs ∧ w1.events = w.events ∧ w1.apiSt = w.apiSt ∧
      w1.wkspcDirArgRes = w.wkspcDirArgRes ∧ w1.wkspcCwdRes = w.wkspcCwdRes ∧
      w1.setRootDirErr = w.setRootDirErr := by
  have hcfg0 : noteConfigFileUsed w = w := by
    simp only [noteConfigFileUsed]
    rw [if_neg (by simp [hcfg])]
  simp only [dvlnFinalPrep]
  rw [hcfg0]
  by_cases hj : w.globs.getString "jobs" ≠ "" ∧ w.globs.getString "jobs" ≠ "all"
  · rw [if_pos hj]
    have hnum : ((w.globs.getString "jobs").toInt?).isSome = true := by
      rcases hjobs with h | h | h
      · exact absurd h hj.1
      · exact absurd h hj.2
      · exact h
    rw [if_neg (by simp [hnum])]
    simp only [dvlnFinalPrepServe]
    rw [if_neg (by simp [hserve])]
    exact ⟨_, rfl, rfl, rfl, rfl, rfl, rfl, rfl⟩
  · rw [if_neg hj]
    simp only [dvlnFinalPrepServe]
    rw [if_neg (by simp [hserve])]
    exact ⟨_, rfl, rfl, rfl, rfl, rfl, rfl, rfl⟩

/-- C7: the resolved look setting accepts exactly `text` and `json` —
any other value makes final prep report a validation error with the
stable numeric code 2004 and a usage hint referencing the active
command name, and the run takes the error-exit path (the standard
non-zero error exit value, `programComplete = true`) before any
subcommand executes (`dvlnFinalPrep`, `cmds/dvln.go`). -/
theorem C7_look_validation (w : World)
    (hcfg : w.configFileUsed = "")
    (hjobs : w.globs.getString "jobs" = "" ∨ w.globs.getString "jobs" = "all"
      ∨ ((w.globs.getString "jobs").toInt?).isSome = true)
    (hserve : w.globs.getBool "serve" = false)
    (hlook1 : w.globs.getString "look" ≠ "text")
    (hlook2 : w.globs.getString "look" ≠ "json") :
    (dvlnFinalPrep w).2.1 = true ∧
    (dvlnFinalPrep w).2.2 = errorExitVal ∧
    errorExitVal ≠ 0 ∧
    (dvlnFinalPrep w).1.events = w.events
      ++ [Event.issueExit errorExitVal 2004
          (lookErrMsg (w.globs.getString "look") (cmdNameOf w.currentCmd))] := by
  obtain ⟨w1, h1, hg, he, _, _, _, _⟩ := dvlnFinalPrep_to_look w hcfg hjobs hserve
  rw [h1]
  simp only [dvlnFinalPrepLook]
  rw [hg, if_pos ⟨hlook1, hlook2⟩]
  refine ⟨rfl, rfl, by decide, ?_⟩
  simp [he]

/-- A run with `--look=bogus` typed on the command line and the root
command active. -/
def c7World : World :=
  { globs := { dvlnRegistry with pflagL := [("look", GVal.s "bogus")] }
    currentCmd := "dvln" }

set_option maxRecDepth 8000 in
set_option maxHeartbeats 2000000 in
/-- C7 witness: `--look=bogus` at the root command yields Issue 2004
with the usage hint, completion before dispatch, and the non-zero error
exit value. -/
theorem C7_look_validation_witness :
    (dvlnFinalPrep c7World).2.1 = true ∧
    (dvlnFinalPrep c7World).2.2 = errorExitVal ∧
    errorExitVal ≠ 0 ∧
    (dvlnFinalPrep c7World).1.events
      = [Event.issueExit errorExitVal 2004 (lookErrMsg "bogus" "")] := by
  have h := C7_look_validation c7World rfl (Or.inr (Or.inl (by decide)))
    (by decide) (by decide) (by decide)
  refine ⟨h.1, h.2.1, h.2.2.1, ?_⟩
  rw [h.2.2.2]
  decide

theorem Globs.getBool_set_ne (g : Globs) (k n : String) (v : GVal) (h : keyEq k n = false) :
    (g.set k v).getBool n = g.getBool n := by
  simp [Globs.getBool, Globs.getVal_set_ne g k n v h]

theorem Globs.getVal_set_self (g : Globs) (n : String) (v : GVal)
    (hscope : g.scopeOf n = Scope.cliGlobal) (hp : lookupKey g.pflagL n = none) :
    (g.set n v).getVal n = some v := by
  unfold Globs.getVal
  rw [show (g.set n v).scopeOf n = Scope.cliGlobal from hscope]
  simp [Globs.set, hp, lookupKey_cons_self]

/-- With valid jobs/serve/look (text) and no version request,
`dvlnFinalPrep` reaches the `--globs` validation unchanged. -/
theorem dvlnFinalPrep_to_globs_text (w : World)
    (hcfg : w.configFileUsed = "")
    (hjobs : w.globs.getString "jobs" = "" ∨ w.globs.getString "jobs" = "all"
      ∨ ((w.globs.getString "jobs").toInt?).isSome = true)
    (hserve : w.globs.getBool "serve" = false)
    (hlook : w.globs.getString "look" = "text")
    (hver : w.globs.getBool "version" = false) :
    ∃ w1 : World,
      dvlnFinalPrep w = dvlnFinalPrepGlobs w1 (cmdNameOf w.currentCmd) errorExitVal ∧
      w1.globs = w.globs ∧ w1.events = w.events := by
  obtain ⟨w1, h1, hg, he, _, _, _, _⟩ := dvlnFinalPrep_to_look w hcfg hjobs hserve
  refine ⟨w1, ?_, hg, he⟩
  rw [h1]
  simp only [dvlnFinalPrepLook]
  rw [hg, hlook]
  rw [if_neg (by intro h; exact h.1 rfl)]
  rw [if_neg (by intro h; exact absurd h.1 (by decide))]
  simp only [dvlnFinalPrepVersion]
  rw [if_neg (by simp [hg, hver])]

/-- C8 counterexample: the claim says every non-empty `--globs` value
other than `env`/`cfg` is a validation error, but the code also accepts
the test-only value `skip` silently — a `--globs=skip` run produces no
event at all and continues to dispatch (`dvlnFinalPrep`,
`cmds/dvln.go` line 784). -/
def c8SkipWorld : World :=
  { globs := { dvlnRegistry with pflagL := [("globs", GVal.s "skip")] }
    currentCmd := "dvln" }

set_option maxRecDepth 8000 in
set_option maxHeartbeats 4000000 in
/-- C8 counterexample theorem: `--globs=skip` is non-empty and not
`env`/`cfg`, yet final prep emits no validation error (no events, no
2005) and the run proceeds to dispatch. -/
theorem C8_globs_skip_counterexample :
    c8SkipWorld.globs.getString "globs" = "skip" ∧
    (dvlnFinalPrep c8SkipWorld).2.1 = false ∧
    (dvlnFinalPrep c8SkipWorld).1.events = [] := by decide

/-- C8 (amended): the `--globs` option accepts `env` and `cfg` (dump
all resolvable settings, exit 0) and additionally the test-only value
`skip` (silently ignored); every other non-empty resolved value is a
validation error with the fixed numeric code 2005 and a non-zero exit
before dispatch (`dvlnFinalPrep`, `cmds/dvln.go`). -/
theorem C8_globs_validation (w : World)
    (hcfg : w.configFileUsed = "")
    (hjobs : w.globs.getString "jobs" = "" ∨ w.globs.getString "jobs" = "all"
      ∨ ((w.globs.getString "jobs").toInt?).isSome = true)
    (hserve : w.globs.getBool "serve" = false)
    (hlook : w.globs.getString "look" = "text")
    (hver : w.globs.getBool "version" = false) :
    (w.globs.getString "globs" ≠ "" → w.globs.getString "globs" ≠ "env" →
      w.globs.getString "globs" ≠ "cfg" → w.globs.getString "globs" ≠ "skip" →
      (dvlnFinalPrep w).2.1 = true ∧
      (dvlnFinalPrep w).2.2 = errorExitVal ∧
      errorExitVal ≠ 0 ∧
      (dvlnFinalPrep w).1.events = w.events
        ++ [Event.issueExit errorExitVal 2005
            (globsErrMsg (w.globs.getString "globs") (cmdNameOf w.currentCmd))]) ∧
    (w.globs.getString "globs" = "env" ∨ w.globs.getString "globs" = "cfg" →
      (dvlnFinalPrep w).2.1 = true ∧
      (dvlnFinalPrep w).2.2 = 0 ∧
      (dvlnFinalPrep w).1.events = w.events
        ++ [Event.printMsg (globsSingletonDump w.globs), Event.exitCall 0]) := by
  obtain ⟨w1, h1, hg, he⟩ := dvlnFinalPrep_to_globs_text w hcfg hjobs hserve hlook hver
  constructor
  · intro hne hnenv hncfg hnskip
    rw [h1]
    simp only [dvlnFinalPrepGlobs]
    rw [hg, if_pos ⟨hne, hnenv, hncfg, hnskip⟩]
    exact ⟨rfl, rfl, by decide, by simp [he]⟩
  · intro hor
    rw [h1]
    simp only [dvlnFinalPrepGlobs]
    rw [hg]
    rw [if_neg (by rcases hor with h | h <;> rw [h] <;> intro hc <;> simp at hc)]
    rw [if_pos hor]
    exact ⟨rfl, rfl, by simp [he, hg]⟩

/-- A `--globs=bogus` run at the root command. -/
def c8BogusWorld : World :=
  { globs := { dvlnRegistry with pflagL := [("globs", GVal.s "bogus")] }
    currentCmd := "dvln" }

/-- A `--globs=env` run at the root command. -/
def c8EnvWorld : World :=
  { globs := { dvlnRegistry with pflagL := [("globs", GVal.s "env")] }
    currentCmd := "dvln" }

set_option maxRecDepth 8000 in
set_option maxHeartbeats 4000000 in
/-- C8 witness: `--globs=bogus` yields Issue 2005 with the non-zero
error exit before dispatch, while `--globs=env` dumps the resolvable
settings and exits 0. -/
theorem C8_globs_validation_witness :
    ((dvlnFinalPrep c8BogusWorld).2.1 = true ∧
     (dvlnFinalPrep c8BogusWorld).2.2 = errorExitVal ∧
     (dvlnFinalPrep c8BogusWorld).1.events
       = [Event.issueExit errorExitVal 2005 (globsErrMsg "bogus" "")]) ∧
    ((dvlnFinalPrep c8EnvWorld).2.1 = true ∧
     (dvlnFinalPrep c8EnvWorld).2.2 = 0 ∧
     (dvlnFinalPrep c8EnvWorld).1.events
       = [Event.printMsg (globsSingletonDump c8EnvWorld.globs), Event.exitCall 0]) := by
  have hb := (C8_globs_validation c8BogusWorld rfl (Or.inr (Or.inl (by decide)))
    (by decide) (by decide) (by decide)).1 (by decide) (by decide) (by decide) (by decide)
  have henv := (C8_globs_validation c8EnvWorld rfl (Or.inr (Or.inl (by decide)))
    (by decide) (by decide) (by decide)).2 (Or.inl (by decide))
  refine ⟨⟨hb.1, hb.2.1, ?_⟩, ⟨henv.1, henv.2.1, ?_⟩⟩
  · rw [hb.2.2.2]
    decide
  · rw [henv.2.2]
    rfl

/-- Happy-path tail of final prep: valid `wkspcdir` of `.`, a clean
workspace scan from the current directory and no root-dir error let the
run continue to dispatch. -/
theorem dvlnFinalPrepWkspc_ok (w : World) (errExit : Int)
    (hdir : w.globs.getString "wkspcdir" = ".")
    (hcwd : w.wkspcCwdRes = WkspcRes.found "")
    (hroot : w.setRootDirErr = none) :
    dvlnFinalPrepWkspc w errExit = ({ w with wkspcRoot := "" }, false, 0) := by
  simp only [dvlnFinalPrepWkspc]
  rw [if_neg (by rw [hdir]; intro h; exact h.1 rfl)]
  rw [hcwd, hroot]

/-- C10 counterexample: with `--look=json` and `--interact` both typed
on the command line, final prep does run the silent `Set("interact",
false)`, but the explicit-CLI layer still outranks the programmatic
`Set` (no `ClearPFlag` here, unlike the record handling), so later
`GetBool("interact")` calls still see `true` and the run proceeds to
dispatch with interaction enabled (`cmds/dvln.go` lines 765-769). -/
def c10World : World :=
  { globs := { dvlnRegistry with pflagL := [("look", GVal.s "json"), ("interact", GVal.b true)] }
    currentCmd := "dvln" }

set_option maxRecDepth 8000 in
set_option maxHeartbeats 4000000 in
/-- C10 counterexample theorem: a json-look run with a CLI-typed
`--interact` keeps resolving interact as `true` after final prep (the
override entry is present but shadowed), and still proceeds to
dispatch. -/
theorem C10_interact_pflag_counterexample :
    c10World.globs.getString "look" = "json" ∧
    c10World.globs.getBool "interact" = true ∧
    (dvlnFinalPrep c10World).2.1 = false ∧
    (dvlnFinalPrep c10World).1.globs.getBool "interact" = true ∧
    lookupKey (dvlnFinalPrep c10World).1.globs.overrideL "interact" = some (GVal.b false) := by
  decide

/-- C10 (amended): when look resolves to `json` and interact resolves
to `true` from any layer OTHER than a typed CLI flag, final prep's
programmatic `Set("interact", false)` wins, all later gets see `false`,
and only two debug-level messages are emitted; a CLI-typed `--interact`
flag, however, outranks the `Set` and survives (`cmds/dvln.go` lines
765-769 with the globs precedence). -/
theorem C10_interact_silent_override (w : World)
    (hcfg : w.configFileUsed = "")
    (hjobs : w.globs.getString "jobs" = "" ∨ w.globs.getString "jobs" = "all"
      ∨ ((w.globs.getString "jobs").toInt?).isSome = true)
    (hserve : w.globs.getBool "serve" = false)
    (hlook : w.globs.getString "look" = "json")
    (hint : w.globs.getBool "interact" = true)
    (hp : lookupKey w.globs.pflagL "interact" = none)
    (hscope : w.globs.scopeOf "interact" = Scope.cliGlobal)
    (hver : w.globs.getBool "version" = false)
    (hglobs : w.globs.getString "globs" = "")
    (hwkdir : w.globs.getString "wkspcdir" = ".")
    (hcwd : w.wkspcCwdRes = WkspcRes.found "")
    (hroot : w.setRootDirErr = none) :
    (dvlnFinalPrep w).2.1 = false ∧
    (dvlnFinalPrep w).1.globs.getBool "interact" = false ∧
    (dvlnFinalPrep w).1.events = w.events
      ++ [Event.debugMsg "Interactive runs are not available for the 'json' output \"look\"",
          Event.debugMsg "- silently disabling interaction (client may have it set for text output)"] := by
  obtain ⟨w1, h1, hg, he, _, _, hcwd1, hroot1⟩ := dvlnFinalPrep_to_look w hcfg hjobs hserve
  rw [h1]
  simp only [dvlnFinalPrepLook]
  rw [hg, he, hlook]
  rw [if_neg (by intro h; exact h.2 rfl)]
  rw [if_pos ⟨rfl, hint⟩]
  simp only [dvlnFinalPrepVersion]
  have hv : (w.globs.set "interact" (GVal.b false)).getBool "version" = false := by
    rw [Globs.getBool_set_ne _ _ _ _ (by decide)]; exact hver
  rw [if_neg (by simp [hv])]
  simp only [dvlnFinalPrepGlobs]
  have hgl : (w.globs.set "interact" (GVal.b false)).getString "globs" = "" := by
    rw [Globs.getString_set_ne _ _ _ _ (by decide)]; exact hglobs
  rw [if_neg (by rw [hgl]; intro h; exact h.1 rfl)]
  rw [if_neg (by rw [hgl]; rintro (h | h) <;> simp at h)]
  rw [dvlnFinalPrepWkspc_ok]
  · refine ⟨rfl, ?_, rfl⟩
    show (w.globs.set "interact" (GVal.b false)).getBool "interact" = false
    simp [Globs.getBool, Globs.getVal_set_self w.globs "interact" (GVal.b false) hscope hp,
      gvalToBool]
  · show (w.globs.set "interact" (GVal.b false)).getString "wkspcdir" = "."
    rw [Globs.getString_set_ne _ _ _ _ (by decide)]; exact hwkdir
  · show w1.wkspcCwdRes = WkspcRes.found ""
    rw [hcwd1, hcwd]
  · show w1.setRootDirErr = none
    rw [hroot1, hroot]

/-- A json-look run where interact comes from the environment layer
rather than a typed CLI flag. -/
def c10EnvWorld : World :=
  { globs := { dvlnRegistry with envL := [("interact", GVal.b true)], pflagL := [("look", GVal.s "json")] }
    currentCmd := "dvln" }

set_option maxRecDepth 8000 in
set_option maxHeartbeats 4000000 in
/-- C10 witness: with `--look=json` typed and interact turned on via
the environment, final prep silently flips interact to false (visible
to later gets), emits only the two debug messages, and continues to
dispatch. -/
theorem C10_interact_silent_override_witness :
    (dvlnFinalPrep c10EnvWorld).2.1 = false ∧
    (dvlnFinalPrep c10EnvWorld).1.globs.getBool "interact" = false ∧
    (dvlnFinalPrep c10EnvWorld).1.events
      = [Event.debugMsg "Interactive runs are not available for the 'json' output \"look\"",
         Event.debugMsg "- silently disabling interaction (client may have it set for text output)"] := by
  have h := C10_interact_silent_override c10EnvWorld rfl (Or.inr (Or.inl (by decide)))
    (by decide) (by decide) (by decide) (by decide) (by decide) (by decide) (by decide)
    (by decide) rfl rfl
  exact ⟨h.1, h.2.1, by rw [h.2.2]; rfl⟩

/-- The three results of the `cli` (cobra) package `c.Find(opts)` call
in `pushCLIOptsToGlobs` (`cmds/dvln.go` line 427): the matched
command's name, the remaining flag arguments, and the error (e.g. an
unknown subcommand name).  Left abstract: the claim is about what the
caller does with the outcome. -/
structure FindOutcome where
  cmdName : String
  flags : List String
  err : Option String
  deriving DecidableEq, Repr

/-- `pushCLIOptsToGlobs` (`cmds/dvln.go` lines 414-450), one level (the
top command; the subcommand recursion repeats the same body).  The
error-handling mode is saved and set to `IgnoreError`, `c.Find(opts)`
is called and its error DISCARDED (`cmd, flags, _ := c.Find(opts)`,
line 427), `currentCmd` is stashed if still empty, the flags are parsed
in the tolerant mode (abstract `parse` oracle for `c.ParseFlags`), only
the used flags are shoved into globs via `SetPFlags`, and the
error-handling mode is restored. -/
def pushCLIOptsToGlobs1 (w : World) (fs : FlagSet) (find : FindOutcome)
    (parse : FlagSet → List String → FlagSet) : World × FlagSet :=
  let currErrHndl := fs.errHandling
  let fs := { fs with errHandling := ErrHandling.ignoreError }
  let w := if w.currentCmd = "" then { w with currentCmd := find.cmdName } else w
  let fs := parse fs find.flags
  let w := { w with globs := w.globs.setPFlags fs }
  let fs := { fs with errHandling := currErrHndl }
  (w, fs)

/-- `Execute` failure path after `dvlnCmd.Execute()` (`cmds/dvln.go`
lines 327-341): a dispatch error is wrapped with the fixed numeric code
2000 (using the captured cli-package output when there is any), emitted
as an Issue, and the program exits with the error exit value. -/
def executeDispatchFailure (w : World) (errText theOutput : String) : World × Int :=
  let msg := if theOutput = "" then "Command line processing problem: " ++ errText
    else theOutput
  ({ w with events := w.events ++ [.issueExit errorExitVal 2000 msg] }, errorExitVal)

/-- The pass-1 outcome for `dvln bogus`: cobra's `Find` reports the
unknown subcommand, which per the function's own doc comment ("we do
choose to catch some 'cli' pkg errors here not related to flags (eg: a
bad subcommand name used on the CLI)") should be caught — but the code
drops it. -/
def c9BadSubcmdFind : FindOutcome :=
  { cmdName := "dvln", flags := ["bogus"]
    err := some "unknown command \"bogus\" for \"dvln\"" }

/-- C9: the spec (and the function's own doc comment) says a non-flag
pass-1 parse error at the root level, such as a nonexistent subcommand
name, is fatal immediately with a usage hint; the code at
`cmds/dvln.go` line 427 instead discards `c.Find`'s error entirely
(`cmd, flags, _ :=`).  Proved here: the pass-1 result is completely
independent of the Find error (so a bad subcommand produces no event at
all in pass 1, including on the concrete `dvln bogus` input), the
tolerant mode is restored afterwards, and every parse error instead
resurfaces only from the authoritative dispatch parse as an Issue with
fixed code 2000 and a non-zero exit.  The flag-error half of the claim
holds; the immediate-fatal half does not — a code bug against the
code's own documented intent. -/
theorem C9_pass1_find_error_discarded :
    (∀ (w : World) (fs : FlagSet) (parse : FlagSet → List String → FlagSet)
      (c : String) (f : List String) (e e' : Option String),
      pushCLIOptsToGlobs1 w fs ⟨c, f, e⟩ parse = pushCLIOptsToGlobs1 w fs ⟨c, f, e'⟩ parse) ∧
    (∀ (w : World) (fs : FlagSet) (find : FindOutcome) (parse : FlagSet → List String → FlagSet),
      (pushCLIOptsToGlobs1 w fs find parse).1.events = w.events ∧
      (pushCLIOptsToGlobs1 w fs find parse).2.errHandling = fs.errHandling) ∧
    (pushCLIOptsToGlobs1 { globs := dvlnRegistry } {} c9BadSubcmdFind (fun f _ => f)).1.events
      = [] ∧
    (∀ (w : World) (errText theOutput : String),
      (executeDispatchFailure w errText theOutput).1.events = w.events
        ++ [Event.issueExit errorExitVal 2000
            (if theOutput = "" then "Command line processing problem: " ++ errText
              else theOutput)] ∧
      (executeDispatchFailure w errText theOutput).2 = errorExitVal) ∧
    errorExitVal ≠ 0 := by
  refine ⟨fun w fs parse c f e e' => rfl, fun w fs find parse => ?_, rfl, fun w e1 o1 => ⟨rfl, rfl⟩, by decide⟩
  constructor
  · simp only [pushCLIOptsToGlobs1]
    split_ifs <;> rfl
  · rfl

/-- How a flag registration pulls its default out of globs: `BoolP`
via `GetBool`, `StringP` via `GetString`, `IntP` via `GetInt`
(`setupDvlnCmdCLIArgs`, `cmds/dvln.go` lines 163-206). -/
inductive DefKind where
  | b
  | s
  | i
  deriving DecidableEq, Repr

/-- Evaluate a registration's default against the current globs. -/
def mkDefVal (k : DefKind) (g : Globs) (key : String) : GVal :=
  match k with
  | .b => GVal.b (g.getBool key)
  | .s => GVal.s (g.getString key)
  | .i => GVal.i (g.getInt key)

/-- One `c.Flags().XVarP/XP(name, shorthand, globs.GetX(key), desc)`
line of `setupDvlnCmdCLIArgs`: the long name, one-char shorthand, the
globs key the default is read from (case differs for Jobs/Look/Port in
the source; globs is case-insensitive) and the value kind. -/
structure FlagRow where
  name : String
  shorthand : String
  key : String
  kind : DefKind
  deriving DecidableEq, Repr

/-- Re-registration default update: replace only the displayed default
of the flag named `n`. -/
def updDef (n : String) (d : GVal) (f : PFlag) : PFlag :=
  if f.name == n then { f with defValue := d } else f

/-- Modelled from the spec: `pflag` flag registration (`BoolP`,
`StringP`, `IntP`, `BoolVarP`).  A new name is appended; registering
an existing name is a duplicate-registration error ("flag redefined")
unless the flag set is in `SetDefValueReparseOK(true)` mode, in which
case only the flag's displayed default value is re-parsed/updated and
its identity and already-parsed state are untouched. -/
def FlagSet.varP (fs : FlagSet) (name shorthand : String) (defV : GVal) (desc : String) :
    Except String FlagSet :=
  match fs.flags.find? (fun f => f.name == name) with
  | none => .ok { fs with flags := fs.flags
      ++ [{ name := name, shorthand := shorthand, defValue := defV, value := defV,
            changed := false, desc := desc }] }
  | some _ =>
    if fs.defValueReparseOK then
      .ok { fs with flags := fs.flags.map (updDef name defV) }
    else
      .error ("flag redefined: " ++ name)

/-- Run the registration lines of `setupDvlnCmdCLIArgs` in source
order against one flag set. -/
def registerRows (g : Globs) (fs : FlagSet) : List FlagRow → Except String FlagSet
  | [] => .ok fs
  | r :: t =>
    match fs.varP r.name r.shorthand (mkDefVal r.kind g r.key) (g.descOf r.name) with
    | .error e => .error e
    | .ok fs1 => registerRows g fs1 t

/-- The persistent flags of `setupDvlnCmdCLIArgs` in source order
(`cmds/dvln.go` lines 163-191). -/
def dvlnPersistentFlagRows : List FlagRow :=
  [⟨"analysis", "A", "analysis", .b⟩,
   ⟨"config", "C", "config", .s⟩,
   ⟨"debug", "D", "debug", .b⟩,
   ⟨"help", "h", "help", .b⟩,
   ⟨"force", "f", "force", .b⟩,
   ⟨"fatalon", "F", "fatalon", .i⟩,
   ⟨"globs", "G", "globs", .s⟩,
   ⟨"interact", "i", "interact", .b⟩,
   ⟨"jobs", "J", "Jobs", .s⟩,
   ⟨"look", "L", "Look", .s⟩,
   ⟨"quiet", "q", "quiet", .b⟩,
   ⟨"record", "R", "record", .s⟩,
   ⟨"terse", "t", "terse", .b⟩,
   ⟨"verbose", "v", "verbose", .b⟩]

/-- The dvln-command-local flags (`cmds/dvln.go` lines 200-206). -/
def dvlnLocalFlagRows : List FlagRow :=
  [⟨"port", "P", "Port", .i⟩,
   ⟨"serve", "S", "serve", .b⟩,
   ⟨"version", "V", "version", .b⟩]

/-- The `cli` (cobra) command state touched by the binder: its local
flag set (`c.Flags()`), its persistent flag set
(`c.PersistentFlags()`), and whether `c.Run` has been wired. -/
structure CmdSt where
  flags : FlagSet := {}
  persistentFlags : FlagSet := {}
  runSet : Bool := false
  deriving DecidableEq, Repr

/-- `setupDvlnCmdCLIArgs` (`cmds/dvln.go` lines 144-211): in reload
mode, enable `SetDefValueReparseOK` on both flag sets first; register
the persistent rows, then the local-only rows, each with its default
freshly resolved from globs; wire `c.Run`; and in reload mode disable
the reparse toggle on both flag sets again. -/
def setupDvlnCmdCLIArgs (g : Globs) (c : CmdSt) (reloadCLIFlags : Bool) :
    Except String CmdSt :=
  let c := if reloadCLIFlags then { c with flags := { c.flags with defValueReparseOK := true }, persistentFlags := { c.persistentFlags with defValueReparseOK := true } } else c
  match registerRows g c.persistentFlags dvlnPersistentFlagRows with
  | .error e => .error e
  | .ok pfs =>
    match registerRows g c.flags dvlnLocalFlagRows with
    | .error e => .error e
    | .ok lfs =>
      let c := { c with persistentFlags := pfs, flags := lfs, runSet := true }
      .ok (if reloadCLIFlags then { c with flags := { c.flags with defValueReparseOK := false }, persistentFlags := { c.persistentFlags with defValueReparseOK := false } } else c)

/-- `reloadCLIDefaults` (`cmds/dvln.go` lines 684-703), the dvln
command's own rebind (the subcommand rebinds repeat the same pattern). -/
def reloadCLIDefaults (g : Globs) (c : CmdSt) : Except String CmdSt :=
  setupDvlnCmdCLIArgs g c true

/-- A flag's identity and parsed state: long name, one-char shorthand,
whether the user changed it, and its current value — everything but
the displayed default (and its derived description). -/
def flagIdent (f : PFlag) : String × String × Bool × GVal :=
  (f.name, f.shorthand, f.changed, f.value)

theorem updDef_name (n : String) (d : GVal) (f : PFlag) : (updDef n d f).name = f.name := by
  simp only [updDef]
  split_ifs <;> rfl

theorem flagIdent_updDef (n : String) (d : GVal) (f : PFlag) :
    flagIdent (updDef n d f) = flagIdent f := by
  simp only [updDef]
  split_ifs <;> rfl

theorem find_name_map_updDef (l : List PFlag) (n q : String) (d : GVal) :
    (((l.map (updDef n d)).find? (fun f => f.name == q)).isSome
      = ((l.find? (fun f => f.name == q)).isSome)) := by
  induction l with
  | nil => rfl
  | cons f t ih =>
    simp only [List.map, List.find?, updDef_name]
    by_cases h : (f.name == q) = true
    · rw [h]; rfl
    · rw [Bool.not_eq_true] at h
      rw [h]
      exact ih

theorem map_flagIdent_updDef (l : List PFlag) (n : String) (d : GVal) :
    (l.map (updDef n d)).map flagIdent = l.map flagIdent := by
  rw [List.map_map]
  exact List.map_congr_left (fun f _ => flagIdent_updDef n d f)

/-- In reparse mode, registering rows whose names all already exist
succeeds, keeps every flag's identity/changed/value, and leaves the
reparse toggle on. -/
theorem registerRows_reparse (g : Globs) (rows : List FlagRow) (fs : FlagSet)
    (hre : fs.defValueReparseOK = true)
    (hall : ∀ r ∈ rows, ((fs.flags.find? (fun f => f.name == r.name)).isSome = true)) :
    ∃ fs', registerRows g fs rows = Except.ok fs' ∧
      fs'.flags.map flagIdent = fs.flags.map flagIdent ∧
      fs'.defValueReparseOK = true := by
  induction rows generalizing fs with
  | nil => exact ⟨fs, rfl, rfl, hre⟩
  | cons r t ih =>
    have hr := hall r (List.mem_cons_self r t)
    obtain ⟨f0, hf0⟩ := Option.isSome_iff_exists.mp hr
    simp only [registerRows, FlagSet.varP]
    rw [hf0]
    simp only [if_pos hre]
    obtain ⟨fs', h1, h2, h3⟩ := ih { fs with flags := fs.flags.map (updDef r.name (mkDefVal r.kind g r.key)) } hre (by intro q hq; rw [find_name_map_updDef]; exact hall q (List.mem_cons_of_mem r hq))
    refine ⟨fs', h1, ?_, h3⟩
    rw [h2]
    exact map_flagIdent_updDef fs.flags r.name (mkDefVal r.kind g r.key)

/-- Without reparse mode, re-registering an already-present first row
is a duplicate-registration error. -/
theorem registerRows_dup_error (g : Globs) (r : FlagRow) (t : List FlagRow) (fs : FlagSet)
    (hre : fs.defValueReparseOK = false)
    (hr : (fs.flags.find? (fun f => f.name == r.name)).isSome = true) :
    registerRows g fs (r :: t) = Except.error ("flag redefined: " ++ r.name) := by
  obtain ⟨f0, hf0⟩ := Option.isSome_iff_exists.mp hr
  simp only [registerRows, FlagSet.varP]
  rw [hf0]
  simp [hre]

/-- C6: for a command state that already carries all of the dvln
flags (any first-pass state, parsed or not), the reload-mode rebind
succeeds with the reparse toggle enabled on both flag sets before the
re-registrations and disabled after, every flag keeps its long name,
shorthand, user-`changed` mark and parsed value (only the displayed
default, re-resolved from globs, may change), and no
duplicate-registration error occurs — whereas re-running the binder on
the same state WITHOUT reload mode is exactly the duplicate
registration error the reload mode exists to avoid
(`setupDvlnCmdCLIArgs` and `reloadCLIDefaults`, `cmds/dvln.go`). -/
theorem C6_reload_rebind (g : Globs) (c : CmdSt)
    (hp : ∀ r ∈ dvlnPersistentFlagRows,
      ((c.persistentFlags.flags.find? (fun f => f.name == r.name)).isSome = true))
    (hl : ∀ r ∈ dvlnLocalFlagRows,
      ((c.flags.flags.find? (fun f => f.name == r.name)).isSome = true)) :
    (∃ c', reloadCLIDefaults g c = Except.ok c' ∧
      c'.persistentFlags.flags.map flagIdent = c.persistentFlags.flags.map flagIdent ∧
      c'.flags.flags.map flagIdent = c.flags.flags.map flagIdent ∧
      c'.persistentFlags.defValueReparseOK = false ∧
      c'.flags.defValueReparseOK = false) ∧
    (c.persistentFlags.defValueReparseOK = false →
      setupDvlnCmdCLIArgs g c false = Except.error ("flag redefined: " ++ "analysis")) := by
  constructor
  · obtain ⟨pfs, hpfs, hpid, hpre⟩ := registerRows_reparse g dvlnPersistentFlagRows
      { c.persistentFlags with defValueReparseOK := true } rfl hp
    obtain ⟨lfs, hlfs, hlid, hlre⟩ := registerRows_reparse g dvlnLocalFlagRows
      { c.flags with defValueReparseOK := true } rfl hl
    refine ⟨{ flags := { lfs with defValueReparseOK := false }, persistentFlags := { pfs with defValueReparseOK := false }, runSet := true }, ?_, hpid, hlid, rfl, rfl⟩
    simp only [reloadCLIDefaults, setupDvlnCmdCLIArgs, reduceIte]
    rw [hpfs, hlfs]
  · intro hoff
    have h := registerRows_dup_error g ⟨"analysis", "A", "analysis", DefKind.b⟩
      (dvlnPersistentFlagRows.tail) c.persistentFlags hoff
      (hp _ (List.mem_cons_self _ _))
    simp only [setupDvlnCmdCLIArgs]
    rw [if_neg (show ¬(false = true) by decide)]
    rw [show dvlnPersistentFlagRows
      = (⟨"analysis", "A", "analysis", DefKind.b⟩ : FlagRow) :: dvlnPersistentFlagRows.tail from rfl]
    rw [h]

/-- The command state after the first (non-reload) binder pass from an
empty command, as `init()` produces it. -/
def c6FirstPass : CmdSt :=
  match setupDvlnCmdCLIArgs dvlnRegistry {} false with
  | .ok c => c
  | .error _ => {}

/-- The registry after a config-file scan changed the default for
`look` — the situation `reloadCLIDefaults` exists for. -/
def c6ReloadGlobs : Globs := dvlnRegistry.setDefault "look" (GVal.s "json")

set_option maxRecDepth 8000 in
set_option maxHeartbeats 4000000 in
/-- C6 witness: on the concrete first-pass command state and a
registry whose `look` default changed, the reload succeeds preserving
every flag's identity triple with both reparse toggles off afterwards,
and the non-reload rerun is the duplicate-registration error. -/
theorem C6_reload_rebind_witness :
    (∃ c', reloadCLIDefaults c6ReloadGlobs c6FirstPass = Except.ok c' ∧
      c'.persistentFlags.flags.map flagIdent = c6FirstPass.persistentFlags.flags.map flagIdent ∧
      c'.flags.flags.map flagIdent = c6FirstPass.flags.flags.map flagIdent ∧
      c'.persistentFlags.defValueReparseOK = false ∧
      c'.flags.defValueReparseOK = false) ∧
    (c6FirstPass.persistentFlags.defValueReparseOK = false →
      setupDvlnCmdCLIArgs c6ReloadGlobs c6FirstPass false
        = Except.error ("flag redefined: " ++ "analysis")) :=
  C6_reload_rebind c6ReloadGlobs c6FirstPass (by decide) (by decide)

end Dvln
